import Mathlib

/-!
# Poco::Data::PostgreSQL::SessionHandle

A shallow embedding of `Data/PostgreSQL/src/SessionHandle.cpp`.

The native client library (libpq) is an external collaborator: it is a
parameter `LibPQ World` of every operation, so each theorem holds for every
behaviour of the native library.  The handle's fields, the native world and the
trace of mutex / handle-use events are threaded explicitly; a C++ exception is
an `Except.error` result that keeps the state reached at the `throw`.
-/

set_option autoImplicit false

namespace Poco.Data.PostgreSQL

/-! ## Native library types (libpq-fe.h) -/

/-- A non-null `PGconn*`: the address of a native connection object.  A pointer
that may be null is an `Option PGconn`. -/
abbrev PGconn := Nat

/-- A non-null `PGcancel*`. -/
abbrev PGcancel := Nat

/-- The `ConnStatusType` enumeration of libpq. -/
inductive ConnStatusType where
  | CONNECTION_OK
  | CONNECTION_BAD
  | CONNECTION_STARTED
  | CONNECTION_MADE
  | CONNECTION_AWAITING_RESPONSE
  | CONNECTION_AUTH_OK
  | CONNECTION_SETENV
  | CONNECTION_SSL_STARTUP
  | CONNECTION_NEEDED
  deriving DecidableEq, Repr

/-- The `ExecStatusType` enumeration of libpq. -/
inductive ExecStatusType where
  | PGRES_EMPTY_QUERY
  | PGRES_COMMAND_OK
  | PGRES_TUPLES_OK
  | PGRES_COPY_OUT
  | PGRES_COPY_IN
  | PGRES_BAD_RESPONSE
  | PGRES_NONFATAL_ERROR
  | PGRES_FATAL_ERROR
  | PGRES_COPY_BOTH
  | PGRES_SINGLE_TUPLE
  deriving DecidableEq, Repr

/-- A native result object, as far as this file looks into it: its status. -/
structure PGresult where
  resultStatus : ExecStatusType
  deriving DecidableEq, Repr

/-- The native `PQresultStatus`: the status stored in the result object, and
`PGRES_FATAL_ERROR` for a null result pointer. -/
def PQresultStatus (res : Option PGresult) : ExecStatusType :=
  match res with
  | none => ExecStatusType.PGRES_FATAL_ERROR
  | some r => r.resultStatus

/-- One entry of the array returned by `PQconninfo` / `PQconndefaults`
(`PQconninfoOption`); a null `char*` is `none`. -/
structure PQconninfoOption where
  keyword : Option String
  envvar : Option String
  compiled : Option String
  val : Option String
  label : Option String
  dispchar : Option String
  dispsize : Int
  deriving DecidableEq, Repr

/-- The native client library as the session handle uses it.  `World` is the
state behind the library (sockets, server, the connection objects).  A
`PGconn*` argument is an `Option PGconn` (`none` is the null pointer), and a
returned pointer likewise.  `PQstatus` and `PQerrorMessage` are accessors: they
read the world and do not change it.  The array behind a `PQconninfoOption*` is
the list of its entries. -/
structure LibPQ (World : Type) where
  PQconnectdb : World → String → Option PGconn × World
  PQstatus : World → Option PGconn → ConnStatusType
  PQfinish : World → Option PGconn → World
  PQreset : World → Option PGconn → World
  PQerrorMessage : World → Option PGconn → String
  PQexec : World → Option PGconn → String → Option PGresult × World
  PQgetCancel : World → Option PGconn → Option PGcancel × World
  PQcancel : World → Option PGcancel → World
  PQserverVersion : World → Option PGconn → Int
  PQbackendPID : World → Option PGconn → Int
  PQprotocolVersion : World → Option PGconn → Int
  PQclientEncoding : World → Option PGconn → Int
  pg_encoding_to_char : Int → String
  PQlibVersion : Int
  PQconninfo : World → Option PGconn → Option (List PQconninfoOption) × World
  PQconndefaults : World → Option (List PQconninfoOption) × World

/-! ## Session constants -/

/-- Modelled from the spec: the constant `Session::TRANSACTION_READ_UNCOMMITTED`
of `Poco/Data/Session.h`, a header that is not among the sources.  The
isolation levels are the single bits of a bitmask (`SessionImpl.h` speaks of
"the supplied bitmask"), in the order of the levels. -/
def TRANSACTION_READ_UNCOMMITTED : Nat := 0x00000001

/-- Modelled from the spec: the constant `Session::TRANSACTION_READ_COMMITTED`
of `Poco/Data/Session.h`. -/
def TRANSACTION_READ_COMMITTED : Nat := 0x00000002

/-- Modelled from the spec: the constant `Session::TRANSACTION_REPEATABLE_READ`
of `Poco/Data/Session.h`. -/
def TRANSACTION_REPEATABLE_READ : Nat := 0x00000004

/-- Modelled from the spec: the constant `Session::TRANSACTION_SERIALIZABLE`
of `Poco/Data/Session.h`. -/
def TRANSACTION_SERIALIZABLE : Nat := 0x00000008

/-- The constant `SessionHandle::POSTGRESQL_READ_COMMITTED`. -/
def POSTGRESQL_READ_COMMITTED : String := "READ COMMITTED"

/-- The constant `SessionHandle::POSTGRESQL_REPEATABLE_READ`. -/
def POSTGRESQL_REPEATABLE_READ : String := "REPEATABLE READ"

/-- The constant `SessionHandle::POSTGRESQL_SERIALIZABLE`. -/
def POSTGRESQL_SERIALIZABLE : String := "SERIALIZABLE"

/-! ## The handle, exceptions and the event trace -/

/-- The data members of `SessionHandle` (the mutex apart, which shows in the
trace).  `_tranactionIsolationLevel` is a `Poco::UInt32`. -/
structure SessionHandle where
  _pConnection : Option PGconn
  _connectionString : String
  _isAutoCommit : Bool
  _isAsynchronousCommit : Bool
  _tranactionIsolationLevel : Nat
  deriving DecidableEq, Repr

/-- The exceptions thrown by the operations, with their message. -/
inductive Exc where
  | ConnectionFailedException (msg : String)
  | NotConnectedException
  | StatementException (msg : String)
  | InvalidArgumentException (msg : String)
  | NullPointerDereference
  deriving DecidableEq, Repr

/-- The native calls that take or produce the connection handle. -/
inductive NativeCall where
  | PQconnectdb (conninfo : String)
  | PQstatus
  | PQfinish
  | PQreset
  | PQerrorMessage
  | PQexec (query : String)
  | PQgetCancel
  | PQserverVersion
  | PQbackendPID
  | PQprotocolVersion
  | PQclientEncoding
  | PQconninfo
  deriving DecidableEq, Repr

/-- What an operation does that the claims speak about: acquiring and releasing
`_sessionMutex`, reading and writing the field `_pConnection`, and calling the
native library on the connection handle. -/
inductive Event where
  | acquire
  | release
  | readConnection
  | writeConnection
  | call (c : NativeCall)
  deriving DecidableEq, Repr

/-- The handle, the native world and the events so far. -/
structure Sys (World : Type) where
  handle : SessionHandle
  world : World
  trace : List Event

/-- A member function body: from a state to a returned value or a thrown
exception, and the state reached. -/
def M (World : Type) (α : Type) : Type := Sys World → Except Exc α × Sys World

namespace M

variable {World : Type} {α β : Type}

/-- Normal completion with a value: the `pure` of the monad. -/
def ret (a : α) : M World α := fun s => (Except.ok a, s)

/-- Sequencing; a thrown exception skips the rest. -/
def andThen (x : M World α) (f : α → M World β) : M World β := fun s =>
  match x s with
  | (Except.ok a, s1) => f a s1
  | (Except.error e, s1) => (Except.error e, s1)

instance : Monad (M World) where
  pure := ret
  bind := andThen

/-- A C++ `throw`. -/
def raise (e : Exc) : M World α := fun s => (Except.error e, s)

/-- The body of `try { ... } catch (...) { }`. -/
def tryCatchAll (x : M World Unit) : M World Unit := fun s =>
  match x s with
  | (_, s1) => (Except.ok (), s1)

/-- A block that opens with `Poco::FastMutex::ScopedLock mutexLocker( _sessionMutex )`:
the mutex is acquired, the block runs, and the mutex is released when the block
is left, by a `return` or by an exception alike. -/
def scopedLock (body : M World α) : M World α := fun s =>
  match body { s with trace := s.trace ++ [Event.acquire] } with
  | (r, s1) => (r, { s1 with trace := s1.trace ++ [Event.release] })

/-- An evaluation of the field `_pConnection`. -/
def readConnection : M World (Option PGconn) := fun s =>
  (Except.ok s.handle._pConnection, { s with trace := s.trace ++ [Event.readConnection] })

/-- An assignment to the field `_pConnection`. -/
def writeConnection (p : Option PGconn) : M World Unit := fun s =>
  (Except.ok (),
    { s with handle := { s.handle with _pConnection := p },
             trace := s.trace ++ [Event.writeConnection] })

/-- Read the handle's other data members. -/
def getHandle : M World SessionHandle := fun s => (Except.ok s.handle, s)

/-- Change the handle's other data members. -/
def modifyHandle (f : SessionHandle → SessionHandle) : M World Unit := fun s =>
  (Except.ok (), { s with handle := f s.handle })

/-- A native call that reads the world. -/
def nativeRead (c : NativeCall) (f : World → α) : M World α := fun s =>
  (Except.ok (f s.world), { s with trace := s.trace ++ [Event.call c] })

/-- A native call that may change the world. -/
def nativeCall (c : NativeCall) (f : World → α × World) : M World α := fun s =>
  (Except.ok (f s.world).1,
    { s with world := (f s.world).2, trace := s.trace ++ [Event.call c] })

/-- A native call outside the list of `NativeCall` (it does not take the
connection handle): it leaves no event. -/
def nativeFree (f : World → α × World) : M World α := fun s =>
  (Except.ok (f s.world).1, { s with world := (f s.world).2 })

end M

open M

variable {World : Type}

/-! ## The operations of `SessionHandle` -/

/-- The constructor `SessionHandle::SessionHandle()`. -/
def SessionHandle.new : SessionHandle :=
  { _pConnection := none
    _connectionString := ""
    _isAutoCommit := true
    _isAsynchronousCommit := false
    _tranactionIsolationLevel := TRANSACTION_READ_COMMITTED }

/-- `SessionHandle::isConnected`. -/
def isConnected (L : LibPQ World) : M World Bool :=
  scopedLock do
    if (← readConnection).isSome then
      let p ← readConnection
      let st ← nativeRead NativeCall.PQstatus (fun w => L.PQstatus w p)
      if st = ConnStatusType.CONNECTION_OK then pure true else pure false
    else
      pure false

/-- `SessionHandle::lastError`. -/
def lastError (L : LibPQ World) : M World String := do
  if !(← isConnected L) then
    pure ""
  else
    scopedLock do
      if (← readConnection).isSome then
        let p ← readConnection
        nativeRead NativeCall.PQerrorMessage (fun w => L.PQerrorMessage w p)
      else
        pure "not connected"

/-- `SessionHandle::connect ( const std::string & aConnectionString )`. -/
def connect (L : LibPQ World) (aConnectionString : String) : M World Unit := do
  if (← isConnected L) then
    raise (Exc.ConnectionFailedException "Already Connected")
  else
    scopedLock do
      let p ← nativeCall (NativeCall.PQconnectdb aConnectionString)
        (fun w => L.PQconnectdb w aConnectionString)
      writeConnection p
    if !(← isConnected L) then
      let msg ← lastError L
      raise (Exc.ConnectionFailedException ("Connection Error: " ++ msg))
    else
      modifyHandle (fun h => { h with _connectionString := aConnectionString })

/-- `SessionHandle::connect ( const char* aConnectionString )`. -/
def connect_cstr (L : LibPQ World) (aConnectionString : String) : M World Unit :=
  connect L aConnectionString

/-- Modelled from the spec: `Poco::NumberFormatter::append( str, value )` of
the Foundation library, which is not among the sources; it appends the decimal
representation of an integer to the string. -/
def NumberFormatter.append (str : String) (value : Nat) : String :=
  str ++ toString value

/-- `SessionHandle::connect(const char* aHost, const char* aUser,
const char* aPassword, const char* aDatabase, unsigned short aPort,
unsigned int aConnectionTimeout )`. -/
def connect_params (L : LibPQ World) (aHost aUser aPassword aDatabase : String)
    (aPort aConnectionTimeout : Nat) : M World Unit :=
  let connectionString := ""
  let connectionString := connectionString.append "host="
  let connectionString := connectionString.append aHost
  let connectionString := connectionString.append " "
  let connectionString := connectionString.append "user="
  let connectionString := connectionString.append aUser
  let connectionString := connectionString.append " "
  let connectionString := connectionString.append "password="
  let connectionString := connectionString.append aPassword
  let connectionString := connectionString.append " "
  let connectionString := connectionString.append "dbname="
  let connectionString := connectionString.append aDatabase
  let connectionString := connectionString.append " "
  let connectionString := connectionString.append "port="
  let connectionString := NumberFormatter.append connectionString aPort
  let connectionString := connectionString.append " "
  let connectionString := connectionString.append "connect_timeout="
  let connectionString := NumberFormatter.append connectionString aConnectionTimeout
  connect L connectionString

/-- `SessionHandle::disconnect`. -/
def disconnect (L : LibPQ World) : M World Unit := do
  if (← readConnection).isSome then
    scopedLock do
      let p ← readConnection
      nativeCall NativeCall.PQfinish (fun w => ((), L.PQfinish w p))
      writeConnection none
  modifyHandle (fun h => { h with _connectionString := "" })

/-- The destructor `SessionHandle::~SessionHandle`. -/
def SessionHandle.destroy (L : LibPQ World) : M World Unit :=
  tryCatchAll (disconnect L)

/-- `SessionHandle::reset`. -/
def reset (L : LibPQ World) : M World Bool := do
  if (← readConnection).isSome then
    scopedLock do
      let p ← readConnection
      nativeCall NativeCall.PQreset (fun w => ((), L.PQreset w p))
    if (← isConnected L) then
      pure true
    else
      pure false
  else
    pure false

/-- `SessionHandle::startTransaction`. -/
def startTransaction (L : LibPQ World) : M World Unit := do
  if !(← isConnected L) then
    raise Exc.NotConnectedException
  else
    let pPQResult ← scopedLock do
      let p ← readConnection
      nativeCall (NativeCall.PQexec "BEGIN") (fun w => L.PQexec w p "BEGIN")
    if PQresultStatus pPQResult ≠ ExecStatusType.PGRES_COMMAND_OK then
      let msg ← lastError L
      raise (Exc.StatementException ("BEGIN statement failed:: " ++ msg))
    else
      pure ()

/-- `SessionHandle::commit`. -/
def commit (L : LibPQ World) : M World Unit := do
  if !(← isConnected L) then
    raise Exc.NotConnectedException
  else
    let pPQResult ← scopedLock do
      let p ← readConnection
      nativeCall (NativeCall.PQexec "COMMIT") (fun w => L.PQexec w p "COMMIT")
    if PQresultStatus pPQResult ≠ ExecStatusType.PGRES_COMMAND_OK then
      let msg ← lastError L
      raise (Exc.StatementException ("COMMIT statement failed:: " ++ msg))
    else
      pure ()

/-- `SessionHandle::rollback`. -/
def rollback (L : LibPQ World) : M World Unit := do
  if !(← isConnected L) then
    raise Exc.NotConnectedException
  else
    let pPQResult ← scopedLock do
      let p ← readConnection
      nativeCall (NativeCall.PQexec "ROLLBACK") (fun w => L.PQexec w p "ROLLBACK")
    if PQresultStatus pPQResult ≠ ExecStatusType.PGRES_COMMAND_OK then
      let msg ← lastError L
      raise (Exc.StatementException ("ROLLBACK statement failed:: " ++ msg))
    else
      pure ()

/-- `SessionHandle::setAutoCommit`. -/
def setAutoCommit (L : LibPQ World) (aShouldAutoCommit : Bool) : M World Unit := do
  if aShouldAutoCommit = (← getHandle)._isAutoCommit then
    pure ()
  else
    if aShouldAutoCommit then
      commit L
    else
      startTransaction L
    modifyHandle (fun h => { h with _isAutoCommit := aShouldAutoCommit })

/-- `SessionHandle::setAsynchronousCommit`. -/
def setAsynchronousCommit (L : LibPQ World) (aShouldAsynchronousCommit : Bool) :
    M World Unit := do
  if !(← isConnected L) then
    raise Exc.NotConnectedException
  else if aShouldAsynchronousCommit = (← getHandle)._isAsynchronousCommit then
    pure ()
  else
    let query :=
      if aShouldAsynchronousCommit then "SET SYNCHRONOUS COMMIT TO OFF"
      else "SET SYNCHRONOUS COMMIT TO ON"
    let pPQResult ← scopedLock do
      let p ← readConnection
      nativeCall (NativeCall.PQexec query) (fun w => L.PQexec w p query)
    if PQresultStatus pPQResult ≠ ExecStatusType.PGRES_COMMAND_OK then
      let msg ← lastError L
      raise (Exc.StatementException ("SET SYNCHRONUS COMMIT statement failed:: " ++ msg))
    else
      modifyHandle (fun h => { h with _isAsynchronousCommit := aShouldAsynchronousCommit })

/-- `SessionHandle::cancel`. -/
def cancel (L : LibPQ World) : M World Unit := do
  if !(← isConnected L) then
    raise Exc.NotConnectedException
  else
    let ptrPGCancel ← scopedLock do
      let p ← readConnection
      nativeCall NativeCall.PQgetCancel (fun w => L.PQgetCancel w p)
    nativeFree (fun w => ((), L.PQcancel w ptrPGCancel))

/-- `SessionHandle::hasTransactionIsolation`. -/
def hasTransactionIsolation (aTI : Nat) : Bool :=
  decide (TRANSACTION_READ_COMMITTED = aTI)
    || decide (TRANSACTION_REPEATABLE_READ = aTI)
    || decide (TRANSACTION_SERIALIZABLE = aTI)

/-- The `switch ( aTI )` of `setTransactionIsolation`: the name of the level,
and the empty string that `isolationLevel` starts with when no case matches. -/
def isolationLevelName (aTI : Nat) : String :=
  if aTI = TRANSACTION_READ_COMMITTED then POSTGRESQL_READ_COMMITTED
  else if aTI = TRANSACTION_REPEATABLE_READ then POSTGRESQL_REPEATABLE_READ
  else if aTI = TRANSACTION_SERIALIZABLE then POSTGRESQL_SERIALIZABLE
  else ""

/-- `SessionHandle::setTransactionIsolation`.  `Poco::format` with the single
directive `%s` at the end of the format puts the string argument there. -/
def setTransactionIsolation (L : LibPQ World) (aTI : Nat) : M World Unit := do
  if !(← isConnected L) then
    raise Exc.NotConnectedException
  else if aTI = (← getHandle)._tranactionIsolationLevel then
    pure ()
  else if !hasTransactionIsolation aTI then
    raise (Exc.InvalidArgumentException "setTransactionIsolation()")
  else
    let isolationLevel := isolationLevelName aTI
    let query := "SET SESSION CHARACTERISTICS AS TRANSACTION ISOLATION LEVEL " ++ isolationLevel
    let pPQResult ← scopedLock do
      let p ← readConnection
      nativeCall (NativeCall.PQexec query) (fun w => L.PQexec w p query)
    if PQresultStatus pPQResult ≠ ExecStatusType.PGRES_COMMAND_OK then
      let msg ← lastError L
      raise (Exc.StatementException ("set transaction isolation statement failed: " ++ msg))
    else
      modifyHandle (fun h => { h with _tranactionIsolationLevel := aTI })

/-- `SessionHandle::transactionIsolation`. -/
def transactionIsolation : M World Nat := do
  pure (← getHandle)._tranactionIsolationLevel

/-- `SessionHandle::serverVersion`. -/
def serverVersion (L : LibPQ World) : M World Int := do
  if !(← isConnected L) then
    raise Exc.NotConnectedException
  else
    scopedLock do
      let p ← readConnection
      nativeRead NativeCall.PQserverVersion (fun w => L.PQserverVersion w p)

/-- `SessionHandle::serverProcessID`. -/
def serverProcessID (L : LibPQ World) : M World Int := do
  if !(← isConnected L) then
    raise Exc.NotConnectedException
  else
    scopedLock do
      let p ← readConnection
      nativeRead NativeCall.PQbackendPID (fun w => L.PQbackendPID w p)

/-- `SessionHandle::protocoVersion`. -/
def protocoVersion (L : LibPQ World) : M World Int := do
  if !(← isConnected L) then
    raise Exc.NotConnectedException
  else
    scopedLock do
      let p ← readConnection
      nativeRead NativeCall.PQprotocolVersion (fun w => L.PQprotocolVersion w p)

/-- `SessionHandle::clientEncoding`. -/
def clientEncoding (L : LibPQ World) : M World String := do
  if !(← isConnected L) then
    raise Exc.NotConnectedException
  else
    scopedLock do
      let p ← readConnection
      let encoding ← nativeRead NativeCall.PQclientEncoding (fun w => L.PQclientEncoding w p)
      pure (L.pg_encoding_to_char encoding)

/-- `SessionHandle::libpqVersion`. -/
def libpqVersion (L : LibPQ World) : M World Int :=
  pure L.PQlibVersion

/-- The class `SessionParameters`, by the arguments of its constructor. -/
structure SessionParameters where
  keyword : String
  environmentVariableVersion : String
  compiledVersion : String
  currentValue : String
  dialogLabel : String
  dialogDisplayCharacter : String
  dialogDisplaysize : Int
  deriving DecidableEq, Repr

/-- A `SessionParametersMap`, a `std::map` from keyword to parameters, as the
list of its entries. -/
abbrev SessionParametersMap := List (String × SessionParameters)

/-- The `insert` of `std::map`: an entry whose key is present already is not
replaced. -/
def SessionParametersMap.insert (m : SessionParametersMap)
    (entry : String × SessionParameters) : SessionParametersMap :=
  if m.any (fun e => e.1 == entry.1) then m else m ++ [entry]

/-- The `while` loop of `SessionHandle::setConnectionInfoParameters`: it walks
the array up to the first entry with a null keyword. -/
def setConnectionInfoParametersLoop :
    List PQconninfoOption → SessionParametersMap → SessionParametersMap
  | [], sessionParametersMap => sessionParametersMap
  | o :: rest, sessionParametersMap =>
    match o.keyword with
    | none => sessionParametersMap
    | some keyword =>
      let connectionParameters : SessionParameters :=
        { keyword := keyword
          environmentVariableVersion := o.envvar.getD ""
          compiledVersion := o.compiled.getD ""
          currentValue := o.val.getD ""
          dialogLabel := o.label.getD ""
          dialogDisplayCharacter := o.dispchar.getD ""
          dialogDisplaysize := o.dispsize }
      setConnectionInfoParametersLoop rest
        (sessionParametersMap.insert (connectionParameters.keyword, connectionParameters))

/-- `SessionHandle::setConnectionInfoParameters`; it dereferences its argument
without a null check. -/
def setConnectionInfoParameters (aConnectionInfoOptionsPtr : Option (List PQconninfoOption)) :
    M World SessionParametersMap :=
  match aConnectionInfoOptionsPtr with
  | none => raise Exc.NullPointerDereference
  | some options => pure (setConnectionInfoParametersLoop options [])

/-- `SessionHandle::connectionDefaultParameters`. -/
def connectionDefaultParameters (L : LibPQ World) : M World SessionParametersMap := do
  let ptrConnInfoOptions ← nativeFree (fun w => L.PQconndefaults w)
  setConnectionInfoParameters ptrConnInfoOptions

/-- `SessionHandle::connectionParameters`. -/
def connectionParameters (L : LibPQ World) : M World SessionParametersMap := do
  if !(← isConnected L) then
    raise Exc.NotConnectedException
  else
    let ptrConnInfoOptions ← scopedLock do
      let p ← readConnection
      nativeCall NativeCall.PQconninfo (fun w => L.PQconninfo w p)
    setConnectionInfoParameters ptrConnInfoOptions

/-! ## Observations -/

/-- Run a member function on a handle and a native world, from an empty trace. -/
def run {α : Type} (m : M World α) (h : SessionHandle) (w : World) :
    Except Exc α × Sys World :=
  m { handle := h, world := w, trace := [] }

/-- What `isConnected()` returns in a state: the handle is non-null and its
native status is `CONNECTION_OK`. -/
def connected (L : LibPQ World) (h : SessionHandle) (w : World) : Bool :=
  h._pConnection.isSome && decide (L.PQstatus w h._pConnection = ConnStatusType.CONNECTION_OK)

/-- The events of one call of `isConnected()`. -/
def isConnectedEvents (h : SessionHandle) : List Event :=
  if h._pConnection.isSome then
    [Event.acquire, Event.readConnection, Event.readConnection,
      Event.call NativeCall.PQstatus, Event.release]
  else
    [Event.acquire, Event.readConnection, Event.release]

/-- What `lastError()` returns in a state. -/
def lastErrorText (L : LibPQ World) (h : SessionHandle) (w : World) : String :=
  if connected L h w then L.PQerrorMessage w h._pConnection else ""

/-- The events of one call of `lastError()`. -/
def lastErrorEvents (L : LibPQ World) (h : SessionHandle) (w : World) : List Event :=
  if connected L h w then
    isConnectedEvents h ++
      [Event.acquire, Event.readConnection, Event.readConnection,
        Event.call NativeCall.PQerrorMessage, Event.release]
  else
    isConnectedEvents h

/-- The connection strings passed to `PQconnectdb` in a trace, in order. -/
def connectCalls : List Event → List String
  | [] => []
  | Event.call (NativeCall.PQconnectdb conninfo) :: rest => conninfo :: connectCalls rest
  | _ :: rest => connectCalls rest

/-- The statements passed to `PQexec` in a trace, in order. -/
def statements : List Event → List String
  | [] => []
  | Event.call (NativeCall.PQexec query) :: rest => query :: statements rest
  | _ :: rest => statements rest

/-- The number of calls of `PQfinish` in a trace. -/
def finishCalls : List Event → Nat
  | [] => 0
  | Event.call NativeCall.PQfinish :: rest => finishCalls rest + 1
  | _ :: rest => finishCalls rest

/-- The native calls of a trace, in order. -/
def nativeCalls : List Event → List NativeCall
  | [] => []
  | Event.call c :: rest => c :: nativeCalls rest
  | _ :: rest => nativeCalls rest

/-- The events of the block `{ ScopedLock; pPQResult = PQexec( _pConnection, query ); }`. -/
def execEvents (query : String) : List Event :=
  [Event.acquire, Event.readConnection, Event.call (NativeCall.PQexec query), Event.release]

/-- The shape shared by `startTransaction`, `commit` and `rollback`, which
differ in the statement and in the prefix of the error message only. -/
def execCommand (L : LibPQ World) (query failure : String) : M World Unit := do
  if !(← isConnected L) then
    raise Exc.NotConnectedException
  else
    let pPQResult ← scopedLock do
      let p ← readConnection
      nativeCall (NativeCall.PQexec query) (fun w => L.PQexec w p query)
    if PQresultStatus pPQResult ≠ ExecStatusType.PGRES_COMMAND_OK then
      let msg ← lastError L
      raise (Exc.StatementException (failure ++ msg))
    else
      pure ()

/-- The contract of a member function that runs one statement: it throws
`NotConnectedException`, with no statement sent, exactly when `isConnected()`
is false; on a connected handle it sends exactly the statement `query`, throws
`StatementException` exactly when the status of the result is not
`PGRES_COMMAND_OK` (so also for a null result) and returns normally otherwise;
the data members of the handle are unchanged in every outcome. -/
def CommandContract (L : LibPQ World) (m : M World Unit) (query : String) : Prop :=
  ∀ (h : SessionHandle) (w : World),
    ((run m h w).1 = Except.error Exc.NotConnectedException ↔ connected L h w = false) ∧
    (connected L h w = false → statements (run m h w).2.trace = []) ∧
    (connected L h w = true →
      statements (run m h w).2.trace = [query] ∧
      ((∃ msg, (run m h w).1 = Except.error (Exc.StatementException msg)) ↔
        PQresultStatus (L.PQexec w h._pConnection query).1 ≠ ExecStatusType.PGRES_COMMAND_OK) ∧
      ((L.PQexec w h._pConnection query).1 = none →
        ∃ msg, (run m h w).1 = Except.error (Exc.StatementException msg)) ∧
      ((run m h w).1 = Except.ok () ↔
        PQresultStatus (L.PQexec w h._pConnection query).1 = ExecStatusType.PGRES_COMMAND_OK)) ∧
    (run m h w).2.handle = h

/-- The public member functions of `SessionHandle`, with their arguments. -/
inductive Op where
  | connect (aConnectionString : String)
  | connect_cstr (aConnectionString : String)
  | connect_params (aHost aUser aPassword aDatabase : String) (aPort aConnectionTimeout : Nat)
  | isConnected
  | disconnect
  | reset
  | lastError
  | startTransaction
  | commit
  | rollback
  | setAutoCommit (aShouldAutoCommit : Bool)
  | setAsynchronousCommit (aShouldAsynchronousCommit : Bool)
  | cancel
  | setTransactionIsolation (aTI : Nat)
  | transactionIsolation
  | serverVersion
  | serverProcessID
  | protocoVersion
  | clientEncoding
  | libpqVersion
  | connectionDefaultParameters
  | connectionParameters
  deriving DecidableEq, Repr

/-- The state after one call of a public member function from an empty trace,
whether the call returned or threw: the handle, the native world and the
events of the call. -/
def Op.run (L : LibPQ World) (op : Op) (h : SessionHandle) (w : World) : Sys World :=
  match op with
  | Op.connect s =>
    (Poco.Data.PostgreSQL.run (Poco.Data.PostgreSQL.connect L s) h w).2
  | Op.connect_cstr s =>
    (Poco.Data.PostgreSQL.run (Poco.Data.PostgreSQL.connect_cstr L s) h w).2
  | Op.connect_params aHost aUser aPassword aDatabase aPort aConnectionTimeout =>
    (Poco.Data.PostgreSQL.run (Poco.Data.PostgreSQL.connect_params L aHost aUser aPassword aDatabase aPort
      aConnectionTimeout) h w).2
  | Op.isConnected =>
    (Poco.Data.PostgreSQL.run (Poco.Data.PostgreSQL.isConnected L) h w).2
  | Op.disconnect =>
    (Poco.Data.PostgreSQL.run (Poco.Data.PostgreSQL.disconnect L) h w).2
  | Op.reset =>
    (Poco.Data.PostgreSQL.run (Poco.Data.PostgreSQL.reset L) h w).2
  | Op.lastError =>
    (Poco.Data.PostgreSQL.run (Poco.Data.PostgreSQL.lastError L) h w).2
  | Op.startTransaction =>
    (Poco.Data.PostgreSQL.run (Poco.Data.PostgreSQL.startTransaction L) h w).2
  | Op.commit =>
    (Poco.Data.PostgreSQL.run (Poco.Data.PostgreSQL.commit L) h w).2
  | Op.rollback =>
    (Poco.Data.PostgreSQL.run (Poco.Data.PostgreSQL.rollback L) h w).2
  | Op.setAutoCommit v =>
    (Poco.Data.PostgreSQL.run (Poco.Data.PostgreSQL.setAutoCommit L v) h w).2
  | Op.setAsynchronousCommit v =>
    (Poco.Data.PostgreSQL.run (Poco.Data.PostgreSQL.setAsynchronousCommit L v) h w).2
  | Op.cancel =>
    (Poco.Data.PostgreSQL.run (Poco.Data.PostgreSQL.cancel L) h w).2
  | Op.setTransactionIsolation aTI =>
    (Poco.Data.PostgreSQL.run (Poco.Data.PostgreSQL.setTransactionIsolation L aTI) h w).2
  | Op.transactionIsolation =>
    (Poco.Data.PostgreSQL.run (Poco.Data.PostgreSQL.transactionIsolation : M World Nat) h w).2
  | Op.serverVersion =>
    (Poco.Data.PostgreSQL.run (Poco.Data.PostgreSQL.serverVersion L) h w).2
  | Op.serverProcessID =>
    (Poco.Data.PostgreSQL.run (Poco.Data.PostgreSQL.serverProcessID L) h w).2
  | Op.protocoVersion =>
    (Poco.Data.PostgreSQL.run (Poco.Data.PostgreSQL.protocoVersion L) h w).2
  | Op.clientEncoding =>
    (Poco.Data.PostgreSQL.run (Poco.Data.PostgreSQL.clientEncoding L) h w).2
  | Op.libpqVersion =>
    (Poco.Data.PostgreSQL.run (Poco.Data.PostgreSQL.libpqVersion L) h w).2
  | Op.connectionDefaultParameters =>
    (Poco.Data.PostgreSQL.run (Poco.Data.PostgreSQL.connectionDefaultParameters L) h w).2
  | Op.connectionParameters =>
    (Poco.Data.PostgreSQL.run (Poco.Data.PostgreSQL.connectionParameters L) h w).2

/-- The handle and the native world after one call of a public member
function. -/
def Op.exec (L : LibPQ World) (op : Op) (h : SessionHandle) (w : World) :
    SessionHandle × World :=
  ((op.run L h w).handle, (op.run L h w).world)

/-- The states a `SessionHandle` can be in: a freshly constructed handle, over
any native world; the state after a call of a public member function on a
reachable state; and a reachable state after the world behind the native
library has moved on its own (the server closed the connection, say). -/
inductive Reachable (L : LibPQ World) : SessionHandle → World → Prop where
  | fresh (w : World) : Reachable L SessionHandle.new w
  | call (op : Op) (h : SessionHandle) (w : World) :
      Reachable L h w → Reachable L (op.exec L h w).1 (op.exec L h w).2
  | environment (h : SessionHandle) (w w1 : World) : Reachable L h w → Reachable L h w1

/-- A member function that leaves the stored isolation level as it is, from
every state. -/
structure FrameLevel {α : Type} (m : M World α) : Prop where
  level_eq : ∀ s : Sys World,
    (m s).2.handle._tranactionIsolationLevel = s.handle._tranactionIsolationLevel

/-- The four isolation levels of `Session`, each a single bit. -/
def isolationLevels : List Nat :=
  [TRANSACTION_READ_UNCOMMITTED, TRANSACTION_READ_COMMITTED, TRANSACTION_REPEATABLE_READ,
    TRANSACTION_SERIALIZABLE]

/-- Walk a trace with the state of `_sessionMutex` (`held`): the state of the
mutex after the trace, or `none` when some use of the handle happens while the
mutex is not held. -/
def mutexAfter : Bool → List Event → Option Bool
  | held, [] => some held
  | _, Event.acquire :: rest => mutexAfter true rest
  | _, Event.release :: rest => mutexAfter false rest
  | held, Event.readConnection :: rest => if held then mutexAfter held rest else none
  | held, Event.writeConnection :: rest => if held then mutexAfter held rest else none
  | held, Event.call _ :: rest => if held then mutexAfter held rest else none

/-- The locking discipline over a trace that starts with the mutex in state
`held`: there is never a handle-use event at a point where the mutex is not
held. -/
def lockedUse (held : Bool) (trace : List Event) : Bool :=
  (mutexAfter held trace).isSome

/-- A member function body that appends to the trace events which respect the
locking discipline when it starts with the mutex in state `held`, and leaves
the mutex in that state. -/
structure Guarded {α : Type} (held : Bool) (m : M World α) : Prop where
  events : ∀ s : Sys World, ∃ evs,
    (m s).2.trace = s.trace ++ evs ∧ mutexAfter held evs = some held

/-- The six assignments of the documented connection-string format, for the
arguments of the six-argument `connect`, in the order the claim gives. -/
def connectionAssignments (host user password database : String) (port timeout : Nat) :
    List (String × String) :=
  [("host", host), ("user", user), ("password", password), ("dbname", database),
    ("port", toString port), ("connect_timeout", toString timeout)]

/-- The names that the documentation of `SessionImpl::SessionImpl` lists for a
connection string. -/
def documentedNames : List String :=
  ["host", "port", "user", "password", "dbname", "connect_timeout"]

/-- The connection string as the claim words it. -/
def connectionStringSpec (host user password database : String) (port timeout : Nat) : String :=
  "host=" ++ host ++ " user=" ++ user ++ " password=" ++ password ++ " dbname=" ++ database ++
    " port=" ++ toString port ++ " connect_timeout=" ++ toString timeout

/-- Walk a trace with the state of the non-recursive `_sessionMutex` (`held`):
the state of the mutex after the trace, or `none` when the mutex is acquired
while it is held already (the call chain would block on itself) or released
while it is not held.  The other events do not touch the mutex. -/
def lockAfter : Bool → List Event → Option Bool
  | held, [] => some held
  | held, Event.acquire :: rest => if held then none else lockAfter true rest
  | held, Event.release :: rest => if held then lockAfter false rest else none
  | held, Event.readConnection :: rest => lockAfter held rest
  | held, Event.writeConnection :: rest => lockAfter held rest
  | held, Event.call _ :: rest => lockAfter held rest

/-- The lock/unlock event trace: the acquire and release events of a trace, in
order. -/
def lockEvents : List Event → List Event
  | [] => []
  | Event.acquire :: rest => Event.acquire :: lockEvents rest
  | Event.release :: rest => Event.release :: lockEvents rest
  | _ :: rest => lockEvents rest

/-- A sequence of strictly alternating acquire and release events that is empty
or starts with an acquire, and ends with a release: acquire, release, acquire,
release, and so on. -/
def alternating : List Event → Bool
  | [] => true
  | Event.acquire :: Event.release :: rest => alternating rest
  | _ => false

/-- A member function body that, started with the mutex in state `held`, never
acquires it while it is held, never releases it while it is not, and leaves it
in the state `held`, whether it returns or throws. -/
structure Locks {α : Type} (held : Bool) (m : M World α) : Prop where
  events : ∀ s : Sys World, ∃ evs,
    (m s).2.trace = s.trace ++ evs ∧ lockAfter held evs = some held

/-- A native library for experiments: the world says whether connections are in
good state and whether statements succeed. -/
structure ToyWorld where
  connectionOk : Bool
  commandOk : Bool
  deriving DecidableEq, Repr

/-- The toy native library over `ToyWorld`: `PQconnectdb` returns the handle 1,
statuses and results follow the two flags of the world. -/
def toyPQ : LibPQ ToyWorld :=
  { PQconnectdb := fun w _ => (some 1, w)
    PQstatus := fun w _ =>
      if w.connectionOk then ConnStatusType.CONNECTION_OK else ConnStatusType.CONNECTION_BAD
    PQfinish := fun w _ => w
    PQreset := fun w _ => w
    PQerrorMessage := fun _ _ => "native error text"
    PQexec := fun w _ _ =>
      (some { resultStatus :=
          if w.commandOk then ExecStatusType.PGRES_COMMAND_OK
          else ExecStatusType.PGRES_FATAL_ERROR }, w)
    PQgetCancel := fun w _ => (some 2, w)
    PQcancel := fun w _ => w
    PQserverVersion := fun _ _ => 90400
    PQbackendPID := fun _ _ => 4242
    PQprotocolVersion := fun _ _ => 3
    PQclientEncoding := fun _ _ => 6
    pg_encoding_to_char := fun _ => "UTF8"
    PQlibVersion := 90400
    PQconninfo := fun w _ => (some [], w)
    PQconndefaults := fun w => (some [], w) }

/-- A handle that holds the native connection 1. -/
def SessionHandle.sample : SessionHandle :=
  { SessionHandle.new with _pConnection := some 1, _connectionString := "host=db" }

/-! ## Basic facts -/

theorem isConnected_eq (L : LibPQ World) (s : Sys World) :
    isConnected L s =
      (Except.ok (connected L s.handle s.world),
        { s with trace := s.trace ++ isConnectedEvents s.handle }) := by
  cases hp : s.handle._pConnection with
  | none =>
    simp [isConnected, scopedLock, readConnection, nativeRead, bind, andThen, pure, ret,
      connected, isConnectedEvents, hp]
  | some c =>
    by_cases hst : L.PQstatus s.world (some c) = ConnStatusType.CONNECTION_OK <;>
      simp [isConnected, scopedLock, readConnection, nativeRead, bind, andThen, pure, ret,
        connected, isConnectedEvents, hp, hst]

theorem lastError_eq (L : LibPQ World) (s : Sys World) :
    lastError L s =
      (Except.ok (lastErrorText L s.handle s.world),
        { s with trace := s.trace ++ lastErrorEvents L s.handle s.world }) := by
  cases hc : connected L s.handle s.world with
  | false =>
    simp [lastError, bind, andThen, pure, ret, isConnected_eq, hc, lastErrorText,
      lastErrorEvents]
  | true =>
    have hp : s.handle._pConnection.isSome = true := by
      simp only [connected, Bool.and_eq_true] at hc
      exact hc.1
    simp [lastError, bind, andThen, pure, ret, isConnected_eq, hc, lastErrorText,
      lastErrorEvents, scopedLock, readConnection, nativeRead, hp]

@[simp]
theorem connectCalls_append (xs ys : List Event) :
    connectCalls (xs ++ ys) = connectCalls xs ++ connectCalls ys := by
  induction xs with
  | nil => rfl
  | cons e rest ih =>
    cases e with
    | call c => cases c <;> simp [connectCalls, ih]
    | _ => simp [connectCalls, ih]

@[simp]
theorem statements_append (xs ys : List Event) :
    statements (xs ++ ys) = statements xs ++ statements ys := by
  induction xs with
  | nil => rfl
  | cons e rest ih =>
    cases e with
    | call c => cases c <;> simp [statements, ih]
    | _ => simp [statements, ih]

@[simp]
theorem finishCalls_append (xs ys : List Event) :
    finishCalls (xs ++ ys) = finishCalls xs + finishCalls ys := by
  induction xs with
  | nil => simp [finishCalls]
  | cons e rest ih =>
    cases e with
    | call c => cases c <;> simp [finishCalls, ih, Nat.add_right_comm]
    | _ => simp [finishCalls, ih]

@[simp]
theorem connectCalls_isConnectedEvents (h : SessionHandle) :
    connectCalls (isConnectedEvents h) = [] := by
  unfold isConnectedEvents
  split <;> rfl

@[simp]
theorem statements_isConnectedEvents (h : SessionHandle) :
    statements (isConnectedEvents h) = [] := by
  unfold isConnectedEvents
  split <;> rfl

@[simp]
theorem finishCalls_isConnectedEvents (h : SessionHandle) :
    finishCalls (isConnectedEvents h) = 0 := by
  unfold isConnectedEvents
  split <;> rfl

@[simp]
theorem connectCalls_lastErrorEvents (L : LibPQ World) (h : SessionHandle) (w : World) :
    connectCalls (lastErrorEvents L h w) = [] := by
  unfold lastErrorEvents
  split <;> simp [connectCalls, statements, finishCalls]

@[simp]
theorem statements_lastErrorEvents (L : LibPQ World) (h : SessionHandle) (w : World) :
    statements (lastErrorEvents L h w) = [] := by
  unfold lastErrorEvents
  split <;> simp [connectCalls, statements, finishCalls]

@[simp]
theorem finishCalls_lastErrorEvents (L : LibPQ World) (h : SessionHandle) (w : World) :
    finishCalls (lastErrorEvents L h w) = 0 := by
  unfold lastErrorEvents
  split <;> simp [connectCalls, statements, finishCalls]

/-! ## connect -/

/-- What `connect(s)` does on a handle that is not connected: the state after
the assignment `_pConnection = PQconnectdb(s)`. -/
theorem connect_eq_of_not_connected (L : LibPQ World) (h : SessionHandle) (w : World)
    (s : String) (hc : connected L h w = false) :
    run (connect L s) h w =
      (if connected L { h with _pConnection := (L.PQconnectdb w s).1 } (L.PQconnectdb w s).2 then
        (Except.ok (),
          { handle := { h with _pConnection := (L.PQconnectdb w s).1, _connectionString := s }
            world := (L.PQconnectdb w s).2
            trace := isConnectedEvents h ++
              [Event.acquire, Event.call (NativeCall.PQconnectdb s), Event.writeConnection,
                Event.release] ++
              isConnectedEvents { h with _pConnection := (L.PQconnectdb w s).1 } })
      else
        (Except.error (Exc.ConnectionFailedException "Connection Error: "),
          { handle := { h with _pConnection := (L.PQconnectdb w s).1 }
            world := (L.PQconnectdb w s).2
            trace := isConnectedEvents h ++
              [Event.acquire, Event.call (NativeCall.PQconnectdb s), Event.writeConnection,
                Event.release] ++
              isConnectedEvents { h with _pConnection := (L.PQconnectdb w s).1 } ++
              isConnectedEvents { h with _pConnection := (L.PQconnectdb w s).1 } })) := by
  cases hn : connected L { h with _pConnection := (L.PQconnectdb w s).1 } (L.PQconnectdb w s).2 <;>
    simp [run, connect, bind, andThen, pure, ret, raise, isConnected_eq, lastError_eq, hc, hn,
      scopedLock, nativeCall, writeConnection, modifyHandle, lastErrorText, lastErrorEvents]

theorem connect_eq_of_connected (L : LibPQ World) (h : SessionHandle) (w : World)
    (s : String) (hc : connected L h w = true) :
    run (connect L s) h w =
      (Except.error (Exc.ConnectionFailedException "Already Connected"),
        { handle := h, world := w, trace := isConnectedEvents h }) := by
  simp [run, connect, bind, andThen, raise, isConnected_eq, hc]

/-- C1: `connect(s)` has exactly three outcomes.  On a connected handle it
throws `ConnectionFailedException("Already Connected")`, calls `PQconnectdb` not
at all and changes neither a field nor the native world.  Otherwise it calls
`PQconnectdb(s)` exactly once and stores the returned handle; when that handle
is non-null with status `CONNECTION_OK` it returns normally with `s` stored as
the connection string, and when not it throws `ConnectionFailedException` with
the stored connection string unchanged.  The autocommit flag, the
asynchronous-commit flag and the isolation level are unchanged in every
outcome. -/
theorem connect_three_outcomes (L : LibPQ World) (h : SessionHandle) (w : World) (s : String) :
    let out := run (connect L s) h w
    let fresh := L.PQconnectdb w s
    (connected L h w = true →
      out.1 = Except.error (Exc.ConnectionFailedException "Already Connected") ∧
      connectCalls out.2.trace = [] ∧ out.2.handle = h ∧ out.2.world = w) ∧
    (connected L h w = false →
      connectCalls out.2.trace = [s] ∧ out.2.world = fresh.2 ∧
      out.2.handle._pConnection = fresh.1 ∧
      ((fresh.1.isSome = true ∧ L.PQstatus fresh.2 fresh.1 = ConnStatusType.CONNECTION_OK) →
        out.1 = Except.ok () ∧ out.2.handle._connectionString = s) ∧
      (¬ (fresh.1.isSome = true ∧ L.PQstatus fresh.2 fresh.1 = ConnStatusType.CONNECTION_OK) →
        (∃ msg, out.1 = Except.error (Exc.ConnectionFailedException msg)) ∧
        out.2.handle._connectionString = h._connectionString)) ∧
    out.2.handle._isAutoCommit = h._isAutoCommit ∧
    out.2.handle._isAsynchronousCommit = h._isAsynchronousCommit ∧
    out.2.handle._tranactionIsolationLevel = h._tranactionIsolationLevel := by
  intro out fresh
  cases hc : connected L h w with
  | true =>
    have e : out = _ := connect_eq_of_connected L h w s hc
    simp [e]
  | false =>
    have e : out = _ := connect_eq_of_not_connected L h w s hc
    cases hn : connected L { h with _pConnection := (L.PQconnectdb w s).1 } (L.PQconnectdb w s).2 with
    | true =>
      have hn2 := hn
      simp only [connected, Bool.and_eq_true, decide_eq_true_eq] at hn2
      simp [e, hn, fresh, connectCalls, hn2.1, hn2.2]
    | false =>
      have hn2 : ¬ ((L.PQconnectdb w s).1.isSome = true ∧
          L.PQstatus (L.PQconnectdb w s).2 (L.PQconnectdb w s).1 =
            ConnStatusType.CONNECTION_OK) := by
        intro hh
        simp [connected, hh.1, hh.2] at hn
      simp only [e, hn, fresh]
      simp [connectCalls, hn2]

/-- C1 at three concrete inputs of the toy library: a connected handle, a fresh
handle with a good server, a fresh handle with a bad server. -/
theorem connect_three_outcomes_witness :
    (run (connect toyPQ "host=db") SessionHandle.sample ⟨true, true⟩).1
        = Except.error (Exc.ConnectionFailedException "Already Connected") ∧
      (run (connect toyPQ "host=db") SessionHandle.new ⟨true, true⟩).1 = Except.ok () ∧
      (∃ msg, (run (connect toyPQ "host=db") SessionHandle.new ⟨false, true⟩).1
        = Except.error (Exc.ConnectionFailedException msg)) :=
  ⟨((connect_three_outcomes toyPQ SessionHandle.sample ⟨true, true⟩ "host=db").1 (by decide)).1,
    ((connect_three_outcomes toyPQ SessionHandle.new ⟨true, true⟩ "host=db").2.1
      (by decide)).2.2.2.1 (by decide) |>.1,
    ((connect_three_outcomes toyPQ SessionHandle.new ⟨false, true⟩ "host=db").2.1
      (by decide)).2.2.2.2 (by decide) |>.1⟩

/-! ## startTransaction, commit, rollback -/

theorem startTransaction_eq (L : LibPQ World) :
    startTransaction L = execCommand L "BEGIN" "BEGIN statement failed:: " := rfl

theorem commit_eq (L : LibPQ World) :
    commit L = execCommand L "COMMIT" "COMMIT statement failed:: " := rfl

theorem rollback_eq (L : LibPQ World) :
    rollback L = execCommand L "ROLLBACK" "ROLLBACK statement failed:: " := rfl

@[simp]
theorem statements_execEvents (query : String) : statements (execEvents query) = [query] := rfl

theorem connected_isSome (L : LibPQ World) (h : SessionHandle) (w : World)
    (hc : connected L h w = true) : h._pConnection.isSome = true := by
  simp only [connected, Bool.and_eq_true] at hc
  exact hc.1

/-- The three outcomes of a one-statement member function, as states. -/
theorem execCommand_eq (L : LibPQ World) (query failure : String) (s : Sys World) :
    execCommand L query failure s =
      if connected L s.handle s.world then
        if PQresultStatus (L.PQexec s.world s.handle._pConnection query).1
            = ExecStatusType.PGRES_COMMAND_OK then
          (Except.ok (),
            { s with world := (L.PQexec s.world s.handle._pConnection query).2
                     trace := s.trace ++ isConnectedEvents s.handle ++ execEvents query })
        else
          (Except.error (Exc.StatementException (failure ++
              lastErrorText L s.handle (L.PQexec s.world s.handle._pConnection query).2)),
            { s with world := (L.PQexec s.world s.handle._pConnection query).2
                     trace := s.trace ++ isConnectedEvents s.handle ++ execEvents query ++
                       lastErrorEvents L s.handle
                         (L.PQexec s.world s.handle._pConnection query).2 })
      else
        (Except.error Exc.NotConnectedException,
          { s with trace := s.trace ++ isConnectedEvents s.handle }) := by
  cases hc : connected L s.handle s.world with
  | false => simp [execCommand, bind, andThen, raise, isConnected_eq, hc]
  | true =>
    by_cases hr : PQresultStatus (L.PQexec s.world s.handle._pConnection query).1
        = ExecStatusType.PGRES_COMMAND_OK <;>
      simp [execCommand, bind, andThen, raise, pure, ret, isConnected_eq, lastError_eq, hc, hr,
        scopedLock, readConnection, nativeCall, execEvents]

theorem execCommand_contract (L : LibPQ World) (query failure : String) :
    CommandContract L (execCommand L query failure) query := by
  intro h w
  cases hc : connected L h w with
  | false => simp [run, execCommand_eq, hc]
  | true =>
    by_cases hr : PQresultStatus (L.PQexec w h._pConnection query).1
        = ExecStatusType.PGRES_COMMAND_OK
    · have hne : (L.PQexec w h._pConnection query).1 ≠ none := by
        intro hnull
        rw [hnull] at hr
        simp [PQresultStatus] at hr
      simp [run, execCommand_eq, hc, hr, hne]
    · simp [run, execCommand_eq, hc, hr]

/-- C5: `startTransaction`, `commit` and `rollback` each throw
`NotConnectedException`, with no statement sent, exactly when `isConnected()` is
false; on a connected handle each sends exactly one statement (`BEGIN`,
`COMMIT`, `ROLLBACK`), throws `StatementException` exactly when the status of
its result is not `PGRES_COMMAND_OK` (a null result included) and returns
normally otherwise; the handle's data members (the autocommit flag, the
asynchronous-commit flag, the isolation level, the connection string) are
unchanged in every outcome. -/
theorem transaction_commands_contract (L : LibPQ World) :
    CommandContract L (startTransaction L) "BEGIN" ∧
      CommandContract L (commit L) "COMMIT" ∧
      CommandContract L (rollback L) "ROLLBACK" :=
  ⟨startTransaction_eq L ▸ execCommand_contract L _ _,
    commit_eq L ▸ execCommand_contract L _ _,
    rollback_eq L ▸ execCommand_contract L _ _⟩

/-- The transaction commands at the toy library: disconnected, connected with a
failing statement, connected with a statement that succeeds. -/
theorem transaction_commands_contract_witness :
    (run (startTransaction toyPQ) SessionHandle.new ⟨true, true⟩).1
        = Except.error Exc.NotConnectedException ∧
      statements (run (commit toyPQ) SessionHandle.sample ⟨true, false⟩).2.trace = ["COMMIT"] ∧
      (run (rollback toyPQ) SessionHandle.sample ⟨true, true⟩).1 = Except.ok () :=
  ⟨(((transaction_commands_contract toyPQ).1 SessionHandle.new ⟨true, true⟩).1).2 (by decide),
    ((((transaction_commands_contract toyPQ).2.1 SessionHandle.sample ⟨true, false⟩).2.2.1)
      (by decide)).1,
    (((((transaction_commands_contract toyPQ).2.2 SessionHandle.sample ⟨true, true⟩).2.2.1)
      (by decide)).2.2.2).2 (by decide)⟩

/-! ## setAutoCommit -/

/-- The statement that `setAutoCommit(v)` issues. -/
theorem setAutoCommit_eq_of_ne (L : LibPQ World) (h : SessionHandle) (w : World) (v : Bool)
    (hv : v ≠ h._isAutoCommit) :
    run (setAutoCommit L v) h w =
      if connected L h w then
        if PQresultStatus (L.PQexec w h._pConnection (if v then "COMMIT" else "BEGIN")).1
            = ExecStatusType.PGRES_COMMAND_OK then
          (Except.ok (),
            { handle := { h with _isAutoCommit := v }
              world := (L.PQexec w h._pConnection (if v then "COMMIT" else "BEGIN")).2
              trace := isConnectedEvents h ++ execEvents (if v then "COMMIT" else "BEGIN") })
        else
          (Except.error (Exc.StatementException
              ((if v then "COMMIT statement failed:: " else "BEGIN statement failed:: ") ++
                lastErrorText L h
                  (L.PQexec w h._pConnection (if v then "COMMIT" else "BEGIN")).2)),
            { handle := h
              world := (L.PQexec w h._pConnection (if v then "COMMIT" else "BEGIN")).2
              trace := isConnectedEvents h ++ execEvents (if v then "COMMIT" else "BEGIN") ++
                lastErrorEvents L h
                  (L.PQexec w h._pConnection (if v then "COMMIT" else "BEGIN")).2 })
      else
        (Except.error Exc.NotConnectedException,
          { handle := h, world := w, trace := isConnectedEvents h }) := by
  cases v with
  | false =>
    cases hc : connected L h w with
    | false =>
      simp [run, setAutoCommit, bind, andThen, getHandle, hv, startTransaction_eq,
        execCommand_eq, hc]
    | true =>
      by_cases hr : PQresultStatus (L.PQexec w h._pConnection "BEGIN").1
          = ExecStatusType.PGRES_COMMAND_OK <;>
        simp [run, setAutoCommit, bind, andThen, getHandle, modifyHandle, hv,
          startTransaction_eq, execCommand_eq, hc, hr]
  | true =>
    cases hc : connected L h w with
    | false =>
      simp [run, setAutoCommit, bind, andThen, getHandle, hv, commit_eq, execCommand_eq, hc]
    | true =>
      by_cases hr : PQresultStatus (L.PQexec w h._pConnection "COMMIT").1
          = ExecStatusType.PGRES_COMMAND_OK <;>
        simp [run, setAutoCommit, bind, andThen, getHandle, modifyHandle, hv,
          commit_eq, execCommand_eq, hc, hr]

/-- C2: `setAutoCommit(v)` with `v` equal to the flag does nothing: no event (so
no native call and no connection check), no exception, the state unchanged,
connected or not.  With `v` different it issues the one statement `COMMIT`
(`v` true) or `BEGIN` (`v` false): on a connected handle exactly that statement
is sent, on a disconnected one none is.  The flag becomes `v` if and only if
the handle is connected and the result status is `PGRES_COMMAND_OK`, and then
the call returns normally; in every other case `NotConnectedException` or
`StatementException` is thrown and the flag is unchanged.  A freshly
constructed handle has the flag true. -/
theorem setAutoCommit_guarded (L : LibPQ World) (h : SessionHandle) (w : World) (v : Bool) :
    let out := run (setAutoCommit L v) h w
    let query := if v then "COMMIT" else "BEGIN"
    let ran := connected L h w = true ∧
      PQresultStatus (L.PQexec w h._pConnection query).1 = ExecStatusType.PGRES_COMMAND_OK
    (v = h._isAutoCommit →
      out = (Except.ok (), { handle := h, world := w, trace := [] })) ∧
    (v ≠ h._isAutoCommit →
      (connected L h w = true → statements out.2.trace = [query]) ∧
      (connected L h w = false →
        statements out.2.trace = [] ∧ out.1 = Except.error Exc.NotConnectedException) ∧
      (out.2.handle._isAutoCommit = v ↔ ran) ∧
      (ran → out.1 = Except.ok ()) ∧
      (¬ ran →
        (out.1 = Except.error Exc.NotConnectedException ∨
          ∃ msg, out.1 = Except.error (Exc.StatementException msg)) ∧
        out.2.handle._isAutoCommit = h._isAutoCommit)) ∧
    SessionHandle.new._isAutoCommit = true := by
  intro out query ran
  refine ⟨?_, ?_, rfl⟩
  · intro hv
    simp [out, run, setAutoCommit, bind, andThen, pure, ret, getHandle, hv]
  · intro hv
    have e : out = _ := setAutoCommit_eq_of_ne L h w v hv
    have hv2 : ¬ h._isAutoCommit = v := fun x => hv x.symm
    cases hc : connected L h w with
    | false => simp [e, hc, ran, hv2]
    | true =>
      by_cases hr : PQresultStatus (L.PQexec w h._pConnection query).1
          = ExecStatusType.PGRES_COMMAND_OK
      · have hr2 := hr
        simp only [query] at hr2
        simp [e, hc, ran, hr, hr2, query]
      · have hr2 := hr
        simp only [query] at hr2
        simp [e, hc, ran, hr, hr2, query, hv2]

/-- C2 at the toy library: a disconnected handle with `v` equal to the flag, and
a connected handle on which `BEGIN` succeeds. -/
theorem setAutoCommit_guarded_witness :
    run (setAutoCommit toyPQ true) SessionHandle.new ⟨false, false⟩
        = (Except.ok (), { handle := SessionHandle.new, world := ⟨false, false⟩, trace := [] }) ∧
      (run (setAutoCommit toyPQ false) SessionHandle.sample ⟨true, true⟩).1 = Except.ok () :=
  ⟨(setAutoCommit_guarded toyPQ SessionHandle.new ⟨false, false⟩ true).1 rfl,
    ((setAutoCommit_guarded toyPQ SessionHandle.sample ⟨true, true⟩ false).2.1
      (by decide)).2.2.2.1 ⟨by decide, by decide⟩⟩

/-! ## setAsynchronousCommit -/

/-- The outcomes of `setAsynchronousCommit(v)`, as states. -/
theorem setAsynchronousCommit_eq (L : LibPQ World) (h : SessionHandle) (w : World) (v : Bool) :
    run (setAsynchronousCommit L v) h w =
      if connected L h w then
        if v = h._isAsynchronousCommit then
          (Except.ok (), { handle := h, world := w, trace := isConnectedEvents h })
        else if PQresultStatus (L.PQexec w h._pConnection
            (if v then "SET SYNCHRONOUS COMMIT TO OFF" else "SET SYNCHRONOUS COMMIT TO ON")).1
            = ExecStatusType.PGRES_COMMAND_OK then
          (Except.ok (),
            { handle := { h with _isAsynchronousCommit := v }
              world := (L.PQexec w h._pConnection
                (if v then "SET SYNCHRONOUS COMMIT TO OFF" else "SET SYNCHRONOUS COMMIT TO ON")).2
              trace := isConnectedEvents h ++ execEvents
                (if v then "SET SYNCHRONOUS COMMIT TO OFF" else "SET SYNCHRONOUS COMMIT TO ON") })
        else
          (Except.error (Exc.StatementException ("SET SYNCHRONUS COMMIT statement failed:: " ++
              lastErrorText L h (L.PQexec w h._pConnection
                (if v then "SET SYNCHRONOUS COMMIT TO OFF"
                  else "SET SYNCHRONOUS COMMIT TO ON")).2)),
            { handle := h
              world := (L.PQexec w h._pConnection
                (if v then "SET SYNCHRONOUS COMMIT TO OFF" else "SET SYNCHRONOUS COMMIT TO ON")).2
              trace := isConnectedEvents h ++ execEvents
                (if v then "SET SYNCHRONOUS COMMIT TO OFF" else "SET SYNCHRONOUS COMMIT TO ON") ++
                lastErrorEvents L h (L.PQexec w h._pConnection
                  (if v then "SET SYNCHRONOUS COMMIT TO OFF"
                    else "SET SYNCHRONOUS COMMIT TO ON")).2 })
      else
        (Except.error Exc.NotConnectedException,
          { handle := h, world := w, trace := isConnectedEvents h }) := by
  cases hc : connected L h w with
  | false => simp [run, setAsynchronousCommit, bind, andThen, raise, isConnected_eq, hc]
  | true =>
    by_cases hv : v = h._isAsynchronousCommit
    · simp [run, setAsynchronousCommit, bind, andThen, pure, ret, getHandle, isConnected_eq,
        hc, hv]
    · by_cases hr : PQresultStatus (L.PQexec w h._pConnection
          (if v then "SET SYNCHRONOUS COMMIT TO OFF" else "SET SYNCHRONOUS COMMIT TO ON")).1
          = ExecStatusType.PGRES_COMMAND_OK <;>
        simp [run, setAsynchronousCommit, bind, andThen, raise, getHandle, modifyHandle,
          isConnected_eq, lastError_eq, hc, hv, hr, scopedLock, readConnection, nativeCall,
          execEvents]

/-- C6: `setAsynchronousCommit(v)` throws `NotConnectedException` exactly when
the handle is not connected, whatever `v` is (the connection check comes before
the equality guard), and then sends nothing and changes nothing.  On a
connected handle with `v` equal to the flag it returns normally, sends no
statement and changes nothing; with `v` different it sends exactly one
statement, `SET SYNCHRONOUS COMMIT TO OFF` for `v` true and
`SET SYNCHRONOUS COMMIT TO ON` for `v` false, the flag becomes `v` exactly when
the result status is `PGRES_COMMAND_OK` (and the call returns normally), and
otherwise `StatementException` is thrown with the flag unchanged.  A freshly
constructed handle has the flag false. -/
theorem setAsynchronousCommit_contract (L : LibPQ World) (h : SessionHandle) (w : World)
    (v : Bool) :
    let out := run (setAsynchronousCommit L v) h w
    let query := if v then "SET SYNCHRONOUS COMMIT TO OFF" else "SET SYNCHRONOUS COMMIT TO ON"
    let status := PQresultStatus (L.PQexec w h._pConnection query).1
    (out.1 = Except.error Exc.NotConnectedException ↔ connected L h w = false) ∧
    (connected L h w = false →
      statements out.2.trace = [] ∧ out.2.handle = h ∧ out.2.world = w) ∧
    (connected L h w = true → v = h._isAsynchronousCommit →
      out.1 = Except.ok () ∧ statements out.2.trace = [] ∧ out.2.handle = h ∧
        out.2.world = w) ∧
    (connected L h w = true → v ≠ h._isAsynchronousCommit →
      statements out.2.trace = [query] ∧
      (out.2.handle._isAsynchronousCommit = v ↔ status = ExecStatusType.PGRES_COMMAND_OK) ∧
      (status = ExecStatusType.PGRES_COMMAND_OK → out.1 = Except.ok ()) ∧
      (status ≠ ExecStatusType.PGRES_COMMAND_OK →
        (∃ msg, out.1 = Except.error (Exc.StatementException msg)) ∧
        out.2.handle._isAsynchronousCommit = h._isAsynchronousCommit)) ∧
    SessionHandle.new._isAsynchronousCommit = false := by
  intro out query status
  have e : out = _ := setAsynchronousCommit_eq L h w v
  cases hc : connected L h w with
  | false => simp [e, hc, SessionHandle.new]
  | true =>
    by_cases hv : v = h._isAsynchronousCommit
    · simp [e, hc, hv, SessionHandle.new]
    · have hv2 : ¬ h._isAsynchronousCommit = v := fun x => hv x.symm
      by_cases hr : status = ExecStatusType.PGRES_COMMAND_OK
      · have hr2 := hr
        simp only [status, query] at hr2
        simp [e, hc, hv, hr, hr2, query, SessionHandle.new]
      · have hr2 := hr
        simp only [status, query] at hr2
        simp [e, hc, hv, hr, hr2, query, hv2, SessionHandle.new]

/-- C6 at the toy library: a disconnected handle with `v` equal to the flag
throws, and a connected handle switches the flag on. -/
theorem setAsynchronousCommit_contract_witness :
    (run (setAsynchronousCommit toyPQ false) SessionHandle.new ⟨true, true⟩).1
        = Except.error Exc.NotConnectedException ∧
      statements (run (setAsynchronousCommit toyPQ true) SessionHandle.sample ⟨true, true⟩).2.trace
        = ["SET SYNCHRONOUS COMMIT TO OFF"] :=
  ⟨(setAsynchronousCommit_contract toyPQ SessionHandle.new ⟨true, true⟩ false).1.2 (by decide),
    ((setAsynchronousCommit_contract toyPQ SessionHandle.sample ⟨true, true⟩ true).2.2.2.1
      (by decide) (by decide)).1⟩

/-! ## setTransactionIsolation -/

/-- The outcomes of `setTransactionIsolation(aTI)`, as states. -/
theorem setTransactionIsolation_eq (L : LibPQ World) (h : SessionHandle) (w : World)
    (aTI : Nat) :
    run (setTransactionIsolation L aTI) h w =
      if connected L h w then
        if aTI = h._tranactionIsolationLevel then
          (Except.ok (), { handle := h, world := w, trace := isConnectedEvents h })
        else if hasTransactionIsolation aTI then
          if PQresultStatus (L.PQexec w h._pConnection
              ("SET SESSION CHARACTERISTICS AS TRANSACTION ISOLATION LEVEL " ++
                isolationLevelName aTI)).1 = ExecStatusType.PGRES_COMMAND_OK then
            (Except.ok (),
              { handle := { h with _tranactionIsolationLevel := aTI }
                world := (L.PQexec w h._pConnection
                  ("SET SESSION CHARACTERISTICS AS TRANSACTION ISOLATION LEVEL " ++
                    isolationLevelName aTI)).2
                trace := isConnectedEvents h ++ execEvents
                  ("SET SESSION CHARACTERISTICS AS TRANSACTION ISOLATION LEVEL " ++
                    isolationLevelName aTI) })
          else
            (Except.error (Exc.StatementException
                ("set transaction isolation statement failed: " ++
                  lastErrorText L h (L.PQexec w h._pConnection
                    ("SET SESSION CHARACTERISTICS AS TRANSACTION ISOLATION LEVEL " ++
                      isolationLevelName aTI)).2)),
              { handle := h
                world := (L.PQexec w h._pConnection
                  ("SET SESSION CHARACTERISTICS AS TRANSACTION ISOLATION LEVEL " ++
                    isolationLevelName aTI)).2
                trace := isConnectedEvents h ++ execEvents
                  ("SET SESSION CHARACTERISTICS AS TRANSACTION ISOLATION LEVEL " ++
                    isolationLevelName aTI) ++
                  lastErrorEvents L h (L.PQexec w h._pConnection
                    ("SET SESSION CHARACTERISTICS AS TRANSACTION ISOLATION LEVEL " ++
                      isolationLevelName aTI)).2 })
        else
          (Except.error (Exc.InvalidArgumentException "setTransactionIsolation()"),
            { handle := h, world := w, trace := isConnectedEvents h })
      else
        (Except.error Exc.NotConnectedException,
          { handle := h, world := w, trace := isConnectedEvents h }) := by
  cases hc : connected L h w with
  | false => simp [run, setTransactionIsolation, bind, andThen, raise, isConnected_eq, hc]
  | true =>
    by_cases hv : aTI = h._tranactionIsolationLevel
    · simp [run, setTransactionIsolation, bind, andThen, pure, ret, getHandle, isConnected_eq,
        hc, hv]
    · cases hs : hasTransactionIsolation aTI with
      | false =>
        simp [run, setTransactionIsolation, bind, andThen, raise, getHandle, isConnected_eq,
          hc, hv, hs]
      | true =>
        by_cases hr : PQresultStatus (L.PQexec w h._pConnection
            ("SET SESSION CHARACTERISTICS AS TRANSACTION ISOLATION LEVEL " ++
              isolationLevelName aTI)).1 = ExecStatusType.PGRES_COMMAND_OK <;>
          simp [run, setTransactionIsolation, bind, andThen, raise, getHandle, modifyHandle,
            isConnected_eq, lastError_eq, hc, hv, hs, hr, scopedLock, readConnection,
            nativeCall, execEvents]

/-- The levels that `hasTransactionIsolation` accepts. -/
theorem hasTransactionIsolation_iff (aTI : Nat) :
    hasTransactionIsolation aTI = true ↔
      aTI = TRANSACTION_READ_COMMITTED ∨ aTI = TRANSACTION_REPEATABLE_READ ∨
        aTI = TRANSACTION_SERIALIZABLE := by
  unfold hasTransactionIsolation
  simp only [Bool.or_eq_true, decide_eq_true_eq]
  constructor
  · rintro ((e | e) | e)
    · exact Or.inl e.symm
    · exact Or.inr (Or.inl e.symm)
    · exact Or.inr (Or.inr e.symm)
  · rintro (e | e | e)
    · exact Or.inl (Or.inl e.symm)
    · exact Or.inl (Or.inr e.symm)
    · exact Or.inr e.symm

/-- The names of the three supported levels. -/
theorem isolationLevelName_supported :
    isolationLevelName TRANSACTION_READ_COMMITTED = "READ COMMITTED" ∧
      isolationLevelName TRANSACTION_REPEATABLE_READ = "REPEATABLE READ" ∧
      isolationLevelName TRANSACTION_SERIALIZABLE = "SERIALIZABLE" := by
  refine ⟨rfl, rfl, rfl⟩

/-- The statements for the three supported levels, written out. -/
theorem isolation_statement_text :
    "SET SESSION CHARACTERISTICS AS TRANSACTION ISOLATION LEVEL " ++
        isolationLevelName TRANSACTION_READ_COMMITTED
        = "SET SESSION CHARACTERISTICS AS TRANSACTION ISOLATION LEVEL READ COMMITTED" ∧
      "SET SESSION CHARACTERISTICS AS TRANSACTION ISOLATION LEVEL " ++
        isolationLevelName TRANSACTION_REPEATABLE_READ
        = "SET SESSION CHARACTERISTICS AS TRANSACTION ISOLATION LEVEL REPEATABLE READ" ∧
      "SET SESSION CHARACTERISTICS AS TRANSACTION ISOLATION LEVEL " ++
        isolationLevelName TRANSACTION_SERIALIZABLE
        = "SET SESSION CHARACTERISTICS AS TRANSACTION ISOLATION LEVEL SERIALIZABLE" := by
  refine ⟨?_, ?_, ?_⟩ <;> decide

/-- C4: on a connected handle, `setTransactionIsolation(aTI)` with a supported
level different from the stored one sends exactly one statement,
`SET SESSION CHARACTERISTICS AS TRANSACTION ISOLATION LEVEL ` followed by
`READ COMMITTED`, `REPEATABLE READ` or `SERIALIZABLE` for
`TRANSACTION_READ_COMMITTED`, `TRANSACTION_REPEATABLE_READ` and
`TRANSACTION_SERIALIZABLE`; when the result status is `PGRES_COMMAND_OK` it
returns normally and `transactionIsolation()` then returns `aTI`, otherwise
`StatementException` is thrown and `transactionIsolation()` still returns the
previous level.  With `aTI` equal to the stored level no statement is sent and
the state is unchanged.  A freshly constructed handle reports
`TRANSACTION_READ_COMMITTED`. -/
theorem setTransactionIsolation_round_trip (L : LibPQ World) (h : SessionHandle) (w : World)
    (aTI : Nat) :
    let out := run (setTransactionIsolation L aTI) h w
    let query := "SET SESSION CHARACTERISTICS AS TRANSACTION ISOLATION LEVEL " ++
      isolationLevelName aTI
    let status := PQresultStatus (L.PQexec w h._pConnection query).1
    (connected L h w = true → hasTransactionIsolation aTI = true →
        aTI ≠ h._tranactionIsolationLevel →
      statements out.2.trace = [query] ∧
      (aTI = TRANSACTION_READ_COMMITTED → query =
        "SET SESSION CHARACTERISTICS AS TRANSACTION ISOLATION LEVEL READ COMMITTED") ∧
      (aTI = TRANSACTION_REPEATABLE_READ → query =
        "SET SESSION CHARACTERISTICS AS TRANSACTION ISOLATION LEVEL REPEATABLE READ") ∧
      (aTI = TRANSACTION_SERIALIZABLE → query =
        "SET SESSION CHARACTERISTICS AS TRANSACTION ISOLATION LEVEL SERIALIZABLE") ∧
      (status = ExecStatusType.PGRES_COMMAND_OK →
        out.1 = Except.ok () ∧
        (run transactionIsolation out.2.handle out.2.world).1 = Except.ok aTI) ∧
      (status ≠ ExecStatusType.PGRES_COMMAND_OK →
        (∃ msg, out.1 = Except.error (Exc.StatementException msg)) ∧
        (run transactionIsolation out.2.handle out.2.world).1
          = Except.ok h._tranactionIsolationLevel)) ∧
    (aTI = h._tranactionIsolationLevel →
      statements out.2.trace = [] ∧ out.2.handle = h ∧ out.2.world = w) ∧
    (run transactionIsolation SessionHandle.new w).1 = Except.ok TRANSACTION_READ_COMMITTED := by
  intro out query status
  have e : out = _ := setTransactionIsolation_eq L h w aTI
  have hget : ∀ (h1 : SessionHandle) (w1 : World),
      (run transactionIsolation h1 w1).1 = Except.ok h1._tranactionIsolationLevel := by
    intro h1 w1
    simp [run, transactionIsolation, bind, andThen, pure, ret, getHandle]
  refine ⟨?_, ?_, ?_⟩
  · intro hc hs hv
    refine ⟨?_, ?_, ?_, ?_, ?_, ?_⟩
    · by_cases hr : PQresultStatus (L.PQexec w h._pConnection
          ("SET SESSION CHARACTERISTICS AS TRANSACTION ISOLATION LEVEL " ++
            isolationLevelName aTI)).1 = ExecStatusType.PGRES_COMMAND_OK <;>
        simp [e, hc, hs, hv, hr, query]
    · intro ha
      simp only [query, ha]
      exact isolation_statement_text.1
    · intro ha
      simp only [query, ha]
      exact isolation_statement_text.2.1
    · intro ha
      simp only [query, ha]
      exact isolation_statement_text.2.2
    · intro hr
      have hr2 := hr
      simp only [status, query] at hr2
      rw [hget]
      simp [e, hc, hs, hv, hr2]
    · intro hr
      have hr2 := hr
      simp only [status, query] at hr2
      rw [hget]
      simp [e, hc, hs, hv, hr2]
  · intro hv
    cases hc : connected L h w <;> simp [e, hc, hv]
  · rw [hget]
    rfl

/-- C4 at the toy library: a connected handle at `READ COMMITTED` is set to
`SERIALIZABLE`, and reads back `SERIALIZABLE`. -/
theorem setTransactionIsolation_round_trip_witness :
    (run transactionIsolation
        (run (setTransactionIsolation toyPQ TRANSACTION_SERIALIZABLE)
          SessionHandle.sample ⟨true, true⟩).2.handle
        (run (setTransactionIsolation toyPQ TRANSACTION_SERIALIZABLE)
          SessionHandle.sample ⟨true, true⟩).2.world).1
      = Except.ok TRANSACTION_SERIALIZABLE :=
  (((setTransactionIsolation_round_trip toyPQ SessionHandle.sample ⟨true, true⟩
    TRANSACTION_SERIALIZABLE).1 (by decide) (by decide) (by decide)).2.2.2.2.1 (by decide)).2

/-! ## The stored isolation level is always a supported one -/

theorem frame_pure {α : Type} (a : α) : FrameLevel (pure a : M World α) := ⟨fun _ => rfl⟩

theorem frame_raise {α : Type} (e : Exc) : FrameLevel (raise e : M World α) := ⟨fun _ => rfl⟩

theorem frame_bind {α β : Type} (x : M World α) (f : α → M World β)
    (hx : FrameLevel x) (hf : ∀ a, FrameLevel (f a)) : FrameLevel (x >>= f) := by
  constructor
  intro s
  show (andThen x f s).2.handle._tranactionIsolationLevel = _
  unfold andThen
  have h1 := hx.level_eq s
  cases hxs : x s with
  | mk r s1 =>
    rw [hxs] at h1
    cases r with
    | error e => exact h1
    | ok a => exact ((hf a).level_eq s1).trans h1

theorem frame_ite {α : Type} (c : Prop) [Decidable c] (x y : M World α)
    (hx : FrameLevel x) (hy : FrameLevel y) : FrameLevel (if c then x else y) := by
  split
  · exact hx
  · exact hy

theorem frame_scopedLock {α : Type} (body : M World α) (hb : FrameLevel body) :
    FrameLevel (scopedLock body) :=
  ⟨fun s => hb.level_eq { s with trace := s.trace ++ [Event.acquire] }⟩

theorem frame_tryCatchAll (x : M World Unit) (hx : FrameLevel x) :
    FrameLevel (tryCatchAll x) :=
  ⟨fun s => hx.level_eq s⟩

theorem frame_readConnection : FrameLevel (readConnection : M World (Option PGconn)) :=
  ⟨fun _ => rfl⟩

theorem frame_writeConnection (p : Option PGconn) :
    FrameLevel (writeConnection p : M World Unit) := ⟨fun _ => rfl⟩

theorem frame_getHandle : FrameLevel (getHandle : M World SessionHandle) := ⟨fun _ => rfl⟩

theorem frame_nativeRead {α : Type} (c : NativeCall) (f : World → α) :
    FrameLevel (nativeRead c f) := ⟨fun _ => rfl⟩

theorem frame_nativeCall {α : Type} (c : NativeCall) (f : World → α × World) :
    FrameLevel (nativeCall c f) := ⟨fun _ => rfl⟩

theorem frame_nativeFree {α : Type} (f : World → α × World) :
    FrameLevel (nativeFree f) := ⟨fun _ => rfl⟩

theorem frame_modifyHandle (f : SessionHandle → SessionHandle)
    (hf : ∀ h, (f h)._tranactionIsolationLevel = h._tranactionIsolationLevel) :
    FrameLevel (modifyHandle f : M World Unit) := ⟨fun s => hf s.handle⟩

theorem frame_isConnected (L : LibPQ World) : FrameLevel (isConnected L) := by
  unfold isConnected
  repeat' (first
    | exact frame_readConnection | exact frame_nativeRead _ _
    | exact frame_pure _ | exact frame_raise _
    | apply frame_scopedLock | apply frame_ite | apply frame_bind | intro _)

theorem frame_lastError (L : LibPQ World) : FrameLevel (lastError L) := by
  unfold lastError
  repeat' (first
    | exact frame_isConnected L | exact frame_readConnection
    | exact frame_nativeRead _ _ | exact frame_pure _ | exact frame_raise _
    | apply frame_scopedLock | apply frame_ite | apply frame_bind | intro _)

theorem frame_setConnectionInfoParameters (ptr : Option (List PQconninfoOption)) :
    FrameLevel (setConnectionInfoParameters ptr : M World SessionParametersMap) := by
  cases ptr with
  | none => exact frame_raise _
  | some options => exact frame_pure _

theorem frame_connect (L : LibPQ World) (aConnectionString : String) :
    FrameLevel (connect L aConnectionString) := by
  unfold connect
  repeat' (first
    | exact frame_isConnected L | exact frame_lastError L | exact frame_readConnection
    | exact frame_writeConnection _ | exact frame_getHandle
    | exact frame_nativeRead _ _ | exact frame_nativeCall _ _ | exact frame_nativeFree _
    | exact frame_pure _ | exact frame_raise _ | exact frame_modifyHandle _ (fun _ => rfl)
    | apply frame_scopedLock | apply frame_ite | apply frame_bind | intro _)

theorem frame_disconnect (L : LibPQ World) :
    FrameLevel (disconnect L) := by
  unfold disconnect
  repeat' (first
    | exact frame_isConnected L | exact frame_lastError L | exact frame_readConnection
    | exact frame_writeConnection _ | exact frame_getHandle
    | exact frame_nativeRead _ _ | exact frame_nativeCall _ _ | exact frame_nativeFree _
    | exact frame_pure _ | exact frame_raise _ | exact frame_modifyHandle _ (fun _ => rfl)
    | apply frame_scopedLock | apply frame_ite | apply frame_bind | intro _)

theorem frame_reset (L : LibPQ World) :
    FrameLevel (reset L) := by
  unfold reset
  repeat' (first
    | exact frame_isConnected L | exact frame_lastError L | exact frame_readConnection
    | exact frame_writeConnection _ | exact frame_getHandle
    | exact frame_nativeRead _ _ | exact frame_nativeCall _ _ | exact frame_nativeFree _
    | exact frame_pure _ | exact frame_raise _ | exact frame_modifyHandle _ (fun _ => rfl)
    | apply frame_scopedLock | apply frame_ite | apply frame_bind | intro _)

theorem frame_startTransaction (L : LibPQ World) :
    FrameLevel (startTransaction L) := by
  unfold startTransaction
  repeat' (first
    | exact frame_isConnected L | exact frame_lastError L | exact frame_readConnection
    | exact frame_writeConnection _ | exact frame_getHandle
    | exact frame_nativeRead _ _ | exact frame_nativeCall _ _ | exact frame_nativeFree _
    | exact frame_pure _ | exact frame_raise _ | exact frame_modifyHandle _ (fun _ => rfl)
    | apply frame_scopedLock | apply frame_ite | apply frame_bind | intro _)

theorem frame_commit (L : LibPQ World) :
    FrameLevel (commit L) := by
  unfold commit
  repeat' (first
    | exact frame_isConnected L | exact frame_lastError L | exact frame_readConnection
    | exact frame_writeConnection _ | exact frame_getHandle
    | exact frame_nativeRead _ _ | exact frame_nativeCall _ _ | exact frame_nativeFree _
    | exact frame_pure _ | exact frame_raise _ | exact frame_modifyHandle _ (fun _ => rfl)
    | apply frame_scopedLock | apply frame_ite | apply frame_bind | intro _)

theorem frame_rollback (L : LibPQ World) :
    FrameLevel (rollback L) := by
  unfold rollback
  repeat' (first
    | exact frame_isConnected L | exact frame_lastError L | exact frame_readConnection
    | exact frame_writeConnection _ | exact frame_getHandle
    | exact frame_nativeRead _ _ | exact frame_nativeCall _ _ | exact frame_nativeFree _
    | exact frame_pure _ | exact frame_raise _ | exact frame_modifyHandle _ (fun _ => rfl)
    | apply frame_scopedLock | apply frame_ite | apply frame_bind | intro _)

theorem frame_setAutoCommit (L : LibPQ World) (v : Bool) :
    FrameLevel (setAutoCommit L v) := by
  unfold setAutoCommit
  repeat' (first
    | exact frame_isConnected L | exact frame_lastError L | exact frame_readConnection
    | exact frame_writeConnection _ | exact frame_getHandle
    | exact frame_nativeRead _ _ | exact frame_nativeCall _ _ | exact frame_nativeFree _
    | exact frame_pure _ | exact frame_raise _ | exact frame_modifyHandle _ (fun _ => rfl)
    | exact frame_commit L | exact frame_startTransaction L
    | apply frame_scopedLock | apply frame_ite | apply frame_bind | intro _)

theorem frame_setAsynchronousCommit (L : LibPQ World) (v : Bool) :
    FrameLevel (setAsynchronousCommit L v) := by
  unfold setAsynchronousCommit
  repeat' (first
    | exact frame_isConnected L | exact frame_lastError L | exact frame_readConnection
    | exact frame_writeConnection _ | exact frame_getHandle
    | exact frame_nativeRead _ _ | exact frame_nativeCall _ _ | exact frame_nativeFree _
    | exact frame_pure _ | exact frame_raise _ | exact frame_modifyHandle _ (fun _ => rfl)
    | apply frame_scopedLock | apply frame_ite | apply frame_bind | intro _)

theorem frame_cancel (L : LibPQ World) :
    FrameLevel (cancel L) := by
  unfold cancel
  repeat' (first
    | exact frame_isConnected L | exact frame_lastError L | exact frame_readConnection
    | exact frame_writeConnection _ | exact frame_getHandle
    | exact frame_nativeRead _ _ | exact frame_nativeCall _ _ | exact frame_nativeFree _
    | exact frame_pure _ | exact frame_raise _ | exact frame_modifyHandle _ (fun _ => rfl)
    | apply frame_scopedLock | apply frame_ite | apply frame_bind | intro _)

theorem frame_serverVersion (L : LibPQ World) :
    FrameLevel (serverVersion L) := by
  unfold serverVersion
  repeat' (first
    | exact frame_isConnected L | exact frame_lastError L | exact frame_readConnection
    | exact frame_writeConnection _ | exact frame_getHandle
    | exact frame_nativeRead _ _ | exact frame_nativeCall _ _ | exact frame_nativeFree _
    | exact frame_pure _ | exact frame_raise _ | exact frame_modifyHandle _ (fun _ => rfl)
    | apply frame_scopedLock | apply frame_ite | apply frame_bind | intro _)

theorem frame_serverProcessID (L : LibPQ World) :
    FrameLevel (serverProcessID L) := by
  unfold serverProcessID
  repeat' (first
    | exact frame_isConnected L | exact frame_lastError L | exact frame_readConnection
    | exact frame_writeConnection _ | exact frame_getHandle
    | exact frame_nativeRead _ _ | exact frame_nativeCall _ _ | exact frame_nativeFree _
    | exact frame_pure _ | exact frame_raise _ | exact frame_modifyHandle _ (fun _ => rfl)
    | apply frame_scopedLock | apply frame_ite | apply frame_bind | intro _)

theorem frame_protocoVersion (L : LibPQ World) :
    FrameLevel (protocoVersion L) := by
  unfold protocoVersion
  repeat' (first
    | exact frame_isConnected L | exact frame_lastError L | exact frame_readConnection
    | exact frame_writeConnection _ | exact frame_getHandle
    | exact frame_nativeRead _ _ | exact frame_nativeCall _ _ | exact frame_nativeFree _
    | exact frame_pure _ | exact frame_raise _ | exact frame_modifyHandle _ (fun _ => rfl)
    | apply frame_scopedLock | apply frame_ite | apply frame_bind | intro _)

theorem frame_clientEncoding (L : LibPQ World) :
    FrameLevel (clientEncoding L) := by
  unfold clientEncoding
  repeat' (first
    | exact frame_isConnected L | exact frame_lastError L | exact frame_readConnection
    | exact frame_writeConnection _ | exact frame_getHandle
    | exact frame_nativeRead _ _ | exact frame_nativeCall _ _ | exact frame_nativeFree _
    | exact frame_pure _ | exact frame_raise _ | exact frame_modifyHandle _ (fun _ => rfl)
    | apply frame_scopedLock | apply frame_ite | apply frame_bind | intro _)

theorem frame_connectionDefaultParameters (L : LibPQ World) :
    FrameLevel (connectionDefaultParameters L) := by
  unfold connectionDefaultParameters
  repeat' (first
    | exact frame_isConnected L | exact frame_lastError L | exact frame_readConnection
    | exact frame_writeConnection _ | exact frame_getHandle
    | exact frame_nativeRead _ _ | exact frame_nativeCall _ _ | exact frame_nativeFree _
    | exact frame_pure _ | exact frame_raise _ | exact frame_modifyHandle _ (fun _ => rfl)
    | exact frame_setConnectionInfoParameters _
    | apply frame_scopedLock | apply frame_ite | apply frame_bind | intro _)

theorem frame_connectionParameters (L : LibPQ World) :
    FrameLevel (connectionParameters L) := by
  unfold connectionParameters
  repeat' (first
    | exact frame_isConnected L | exact frame_lastError L | exact frame_readConnection
    | exact frame_writeConnection _ | exact frame_getHandle
    | exact frame_nativeRead _ _ | exact frame_nativeCall _ _ | exact frame_nativeFree _
    | exact frame_pure _ | exact frame_raise _ | exact frame_modifyHandle _ (fun _ => rfl)
    | exact frame_setConnectionInfoParameters _
    | apply frame_scopedLock | apply frame_ite | apply frame_bind | intro _)

theorem frame_connect_params (L : LibPQ World) (aHost aUser aPassword aDatabase : String)
    (aPort aConnectionTimeout : Nat) :
    FrameLevel (connect_params L aHost aUser aPassword aDatabase aPort aConnectionTimeout) :=
  frame_connect L _

theorem frame_transactionIsolation : FrameLevel (transactionIsolation : M World Nat) := by
  unfold transactionIsolation
  exact frame_bind _ _ frame_getHandle (fun _ => frame_pure _)

theorem frame_libpqVersion (L : LibPQ World) : FrameLevel (libpqVersion L) := frame_pure _

/-- The level after `setTransactionIsolation(aTI)` is the level before or a
supported level. -/
theorem setTransactionIsolation_level (L : LibPQ World) (h : SessionHandle) (w : World)
    (aTI : Nat) :
    (run (setTransactionIsolation L aTI) h w).2.handle._tranactionIsolationLevel
        = h._tranactionIsolationLevel ∨
      hasTransactionIsolation
        (run (setTransactionIsolation L aTI) h w).2.handle._tranactionIsolationLevel = true := by
  rw [setTransactionIsolation_eq]
  split
  · split
    · exact Or.inl rfl
    · split
      · split
        · rename_i hs _
          exact Or.inr hs
        · exact Or.inl rfl
      · exact Or.inl rfl
  · exact Or.inl rfl

/-- The invariant of the stored isolation level: in every reachable state it is
one of the supported levels. -/
theorem level_supported_of_reachable (L : LibPQ World) (h : SessionHandle) (w : World)
    (hr : Reachable L h w) : hasTransactionIsolation h._tranactionIsolationLevel = true := by
  induction hr with
  | fresh w => rfl
  | environment h w w1 _ ih => exact ih
  | call op h w _ ih =>
    have keep : ∀ {α : Type} (m : M World α), FrameLevel m →
        hasTransactionIsolation (run m h w).2.handle._tranactionIsolationLevel = true := by
      intro α m hm
      have e := hm.level_eq { handle := h, world := w, trace := [] }
      simp only [run]
      rw [e]
      exact ih
    cases op with
    | connect s => exact keep _ (frame_connect L s)
    | connect_cstr s => exact keep _ (frame_connect L s)
    | connect_params a b c d e f => exact keep _ (frame_connect_params L a b c d e f)
    | isConnected => exact keep _ (frame_isConnected L)
    | disconnect => exact keep _ (frame_disconnect L)
    | reset => exact keep _ (frame_reset L)
    | lastError => exact keep _ (frame_lastError L)
    | startTransaction => exact keep _ (frame_startTransaction L)
    | commit => exact keep _ (frame_commit L)
    | rollback => exact keep _ (frame_rollback L)
    | setAutoCommit v => exact keep _ (frame_setAutoCommit L v)
    | setAsynchronousCommit v => exact keep _ (frame_setAsynchronousCommit L v)
    | cancel => exact keep _ (frame_cancel L)
    | setTransactionIsolation aTI =>
      rcases setTransactionIsolation_level L h w aTI with e | e
      · simp only [Op.exec, Op.run]
        rw [e]
        exact ih
      · exact e
    | transactionIsolation => exact keep _ frame_transactionIsolation
    | serverVersion => exact keep _ (frame_serverVersion L)
    | serverProcessID => exact keep _ (frame_serverProcessID L)
    | protocoVersion => exact keep _ (frame_protocoVersion L)
    | clientEncoding => exact keep _ (frame_clientEncoding L)
    | libpqVersion => exact keep _ (frame_libpqVersion L)
    | connectionDefaultParameters => exact keep _ (frame_connectionDefaultParameters L)
    | connectionParameters => exact keep _ (frame_connectionParameters L)

/-- Thrown only when connected and unsupported: this direction holds from every
state, reachable or not. -/
theorem invalid_argument_only_if (L : LibPQ World) (h : SessionHandle) (w : World) (aTI : Nat)
    (msg : String)
    (ht : (run (setTransactionIsolation L aTI) h w).1
      = Except.error (Exc.InvalidArgumentException msg)) :
    connected L h w = true ∧ hasTransactionIsolation aTI = false := by
  rw [setTransactionIsolation_eq] at ht
  cases hc : connected L h w with
  | false => simp [hc] at ht
  | true =>
    by_cases hv : aTI = h._tranactionIsolationLevel
    · simp [hc, hv] at ht
    · cases hs : hasTransactionIsolation aTI with
      | false => exact ⟨rfl, rfl⟩
      | true =>
        by_cases hq : PQresultStatus (L.PQexec w h._pConnection
            ("SET SESSION CHARACTERISTICS AS TRANSACTION ISOLATION LEVEL " ++
              isolationLevelName aTI)).1 = ExecStatusType.PGRES_COMMAND_OK <;>
          simp [hc, hv, hs, hq] at ht

/-- The other direction needs the invariant: on a connected handle whose stored
level were the unsupported `TRANSACTION_READ_UNCOMMITTED`, asking for that
level returns normally. -/
theorem invalid_argument_if_needs_invariant :
    (run (setTransactionIsolation toyPQ TRANSACTION_READ_UNCOMMITTED)
        { SessionHandle.sample with _tranactionIsolationLevel := TRANSACTION_READ_UNCOMMITTED }
        ⟨true, true⟩).1 = Except.ok () := rfl

/-- C3: in every state reachable from a freshly constructed handle,
`setTransactionIsolation(aTI)` throws `Poco::InvalidArgumentException` if and
only if the handle is connected and `aTI` is not a supported level.  Supported
means `hasTransactionIsolation(aTI)`, which holds exactly for
`TRANSACTION_READ_COMMITTED`, `TRANSACTION_REPEATABLE_READ` and
`TRANSACTION_SERIALIZABLE`; `TRANSACTION_READ_UNCOMMITTED` and the union of any
two different level bits are unsupported.  When it throws so, no statement has
been sent and the handle (the stored level with it) and the native world are
unchanged.  On a handle that is not connected it throws `NotConnectedException`
whatever `aTI` is. -/
theorem setTransactionIsolation_invalid_argument (L : LibPQ World) (h : SessionHandle)
    (w : World) (hr : Reachable L h w) (aTI : Nat) :
    let out := run (setTransactionIsolation L aTI) h w
    ((∃ msg, out.1 = Except.error (Exc.InvalidArgumentException msg)) ↔
      (connected L h w = true ∧ hasTransactionIsolation aTI = false)) ∧
    (hasTransactionIsolation aTI = true ↔
      aTI = TRANSACTION_READ_COMMITTED ∨ aTI = TRANSACTION_REPEATABLE_READ ∨
        aTI = TRANSACTION_SERIALIZABLE) ∧
    hasTransactionIsolation TRANSACTION_READ_UNCOMMITTED = false ∧
    (∀ a ∈ isolationLevels, ∀ b ∈ isolationLevels, a ≠ b →
      hasTransactionIsolation (a ||| b) = false) ∧
    ((∃ msg, out.1 = Except.error (Exc.InvalidArgumentException msg)) →
      statements out.2.trace = [] ∧ out.2.handle = h ∧ out.2.world = w) ∧
    (connected L h w = false → out.1 = Except.error Exc.NotConnectedException) := by
  intro out
  have e : out = _ := setTransactionIsolation_eq L h w aTI
  have hinv := level_supported_of_reachable L h w hr
  refine ⟨?_, hasTransactionIsolation_iff aTI, by decide, by decide, ?_, ?_⟩
  · cases hc : connected L h w with
    | false => simp [e, hc]
    | true =>
      by_cases hv : aTI = h._tranactionIsolationLevel
      · have hs : hasTransactionIsolation aTI = true := hv ▸ hinv
        simp [e, hc, hv, hinv]
      · cases hs : hasTransactionIsolation aTI with
        | false => simp [e, hc, hv, hs]
        | true =>
          by_cases hq : PQresultStatus (L.PQexec w h._pConnection
              ("SET SESSION CHARACTERISTICS AS TRANSACTION ISOLATION LEVEL " ++
                isolationLevelName aTI)).1 = ExecStatusType.PGRES_COMMAND_OK <;>
            simp [e, hc, hv, hs, hq]
  · cases hc : connected L h w with
    | false => simp [e, hc]
    | true =>
      by_cases hv : aTI = h._tranactionIsolationLevel
      · simp [e, hc, hv]
      · cases hs : hasTransactionIsolation aTI with
        | false => simp [e, hc, hv, hs]
        | true =>
          by_cases hq : PQresultStatus (L.PQexec w h._pConnection
              ("SET SESSION CHARACTERISTICS AS TRANSACTION ISOLATION LEVEL " ++
                isolationLevelName aTI)).1 = ExecStatusType.PGRES_COMMAND_OK <;>
            simp [e, hc, hv, hs, hq]
  · intro hc
    simp [e, hc]

/-- C3 at the toy library: after `connect` on a fresh handle, asking for
`TRANSACTION_READ_UNCOMMITTED` throws `InvalidArgumentException`. -/
theorem setTransactionIsolation_invalid_argument_witness :
    ∃ msg, (run (setTransactionIsolation toyPQ TRANSACTION_READ_UNCOMMITTED)
        ((Op.connect "host=db").exec toyPQ SessionHandle.new ⟨true, true⟩).1
        ((Op.connect "host=db").exec toyPQ SessionHandle.new ⟨true, true⟩).2).1
      = Except.error (Exc.InvalidArgumentException msg) := by
  have hr := Reachable.call (Op.connect "host=db") SessionHandle.new (⟨true, true⟩ : ToyWorld)
    (Reachable.fresh ⟨true, true⟩ : Reachable toyPQ SessionHandle.new ⟨true, true⟩)
  exact (setTransactionIsolation_invalid_argument toyPQ _ _ hr
    TRANSACTION_READ_UNCOMMITTED).1.2 ⟨by decide, by decide⟩

/-! ## disconnect -/

/-- What `disconnect()` does, as a state. -/
theorem disconnect_eq (L : LibPQ World) (h : SessionHandle) (w : World) :
    run (disconnect L) h w =
      (Except.ok (),
        { handle := { h with _pConnection := none, _connectionString := "" }
          world := if h._pConnection.isSome then L.PQfinish w h._pConnection else w
          trace :=
            if h._pConnection.isSome then
              [Event.readConnection, Event.acquire, Event.readConnection,
                Event.call NativeCall.PQfinish, Event.writeConnection, Event.release]
            else [Event.readConnection] }) := by
  cases hp : h._pConnection <;>
    simp [run, disconnect, bind, andThen, pure, ret, scopedLock, readConnection,
      writeConnection, nativeCall, modifyHandle, hp]

/-- C7: `disconnect()` never throws and yields the state with a null connection
handle and an empty connection string that is otherwise the input state, so
the autocommit flag, the asynchronous-commit flag and the isolation level are
not reset.  `PQfinish` is called exactly once when the handle was non-null and
not at all otherwise.  Afterwards `isConnected()` is false, and a second
`disconnect()` leaves the same state with no call of `PQfinish`.  A `connect`
after the `disconnect` keeps the autocommit flag as it was before both, and
neither of the two sends a statement. -/
theorem disconnect_frame (L : LibPQ World) (h : SessionHandle) (w : World) :
    let out := run (disconnect L) h w
    let again := run (disconnect L) out.2.handle out.2.world
    out.1 = Except.ok () ∧
    out.2.handle = { h with _pConnection := none, _connectionString := "" } ∧
    finishCalls out.2.trace = (if h._pConnection.isSome then 1 else 0) ∧
    (run (isConnected L) out.2.handle out.2.world).1 = Except.ok false ∧
    (again.1 = Except.ok () ∧ again.2.handle = out.2.handle ∧ again.2.world = out.2.world ∧
      finishCalls again.2.trace = 0) ∧
    (∀ s : String,
      (run (connect L s) out.2.handle out.2.world).2.handle._isAutoCommit = h._isAutoCommit ∧
      statements out.2.trace = [] ∧
      statements (run (connect L s) out.2.handle out.2.world).2.trace = []) := by
  intro out again
  have e : out = _ := disconnect_eq L h w
  have e2 : again = _ := disconnect_eq L out.2.handle out.2.world
  have hc : connected L out.2.handle out.2.world = false := by
    simp [e, connected]
  refine ⟨?_, ?_, ?_, ?_, ?_, ?_⟩
  · simp [e]
  · simp [e]
  · cases hp : h._pConnection <;> simp [e, hp, finishCalls]
  · simp [run, isConnected_eq, hc]
  · simp [e2, e, finishCalls]
  · intro s
    refine ⟨?_, ?_, ?_⟩
    · rw [(connect_three_outcomes L out.2.handle out.2.world s).2.2.1]
      simp [e]
    · cases hp : h._pConnection <;> simp [e, hp, statements]
    · rw [connect_eq_of_not_connected L out.2.handle out.2.world s hc]
      split <;> simp [statements]

/-- C7 at the toy library: a connected handle with autocommit off is
disconnected; the flag stays off and `PQfinish` was called once. -/
theorem disconnect_frame_witness :
    (run (disconnect toyPQ) { SessionHandle.sample with _isAutoCommit := false }
        ⟨true, true⟩).2.handle
      = { SessionHandle.new with _isAutoCommit := false } ∧
      finishCalls (run (disconnect toyPQ) { SessionHandle.sample with _isAutoCommit := false }
        ⟨true, true⟩).2.trace = 1 :=
  ⟨(disconnect_frame toyPQ { SessionHandle.sample with _isAutoCommit := false }
      ⟨true, true⟩).2.1,
    (disconnect_frame toyPQ { SessionHandle.sample with _isAutoCommit := false }
      ⟨true, true⟩).2.2.1⟩

/-! ## lastError -/

/-- C10: `lastError()` returns the empty string whenever `isConnected()` is
false and the text of `PQerrorMessage` otherwise; it calls `PQerrorMessage`
exactly when the handle is connected, so the branch that yields
`"not connected"` is never taken (the literal can only come back as the native
text itself).  Consequently, whenever `connect(s)` fails after calling
`PQconnectdb`, the exception is `ConnectionFailedException("Connection Error: ")`,
and `PQerrorMessage` was not called. -/
theorem lastError_empty_when_not_connected (L : LibPQ World) (h : SessionHandle) (w : World) :
    let out := run (lastError L) h w
    (connected L h w = false →
      out.1 = Except.ok "" ∧ nativeCalls out.2.trace ⊆ [NativeCall.PQstatus]) ∧
    (connected L h w = true →
      out.1 = Except.ok (L.PQerrorMessage w h._pConnection) ∧
      nativeCalls out.2.trace = [NativeCall.PQstatus, NativeCall.PQerrorMessage]) ∧
    (out.1 = Except.ok "not connected" →
      connected L h w = true ∧ L.PQerrorMessage w h._pConnection = "not connected") ∧
    (∀ s : String, connected L h w = false →
      (run (connect L s) h w).1 ≠ Except.ok () →
      (run (connect L s) h w).1
          = Except.error (Exc.ConnectionFailedException "Connection Error: ") ∧
        NativeCall.PQerrorMessage ∉ nativeCalls (run (connect L s) h w).2.trace) := by
  intro out
  have e : out = _ := lastError_eq L { handle := h, world := w, trace := [] }
  refine ⟨?_, ?_, ?_, ?_⟩
  · intro hc
    cases hp : h._pConnection <;>
      simp [e, hc, lastErrorText, lastErrorEvents, isConnectedEvents, hp, nativeCalls]
  · intro hc
    have hp := connected_isSome L h w hc
    simp [e, hc, lastErrorText, lastErrorEvents, isConnectedEvents, hp, nativeCalls]
  · intro ho
    cases hc : connected L h w with
    | false => simp [e, hc, lastErrorText] at ho
    | true => simpa [e, hc, lastErrorText] using ho
  · intro s hc hfail
    rw [connect_eq_of_not_connected L h w s hc] at hfail ⊢
    cases hn : connected L { h with _pConnection := (L.PQconnectdb w s).1 }
        (L.PQconnectdb w s).2 with
    | true => simp [hn] at hfail
    | false =>
      cases hp : h._pConnection <;> cases hq : (L.PQconnectdb w s).1 <;>
        simp [hn, isConnectedEvents, hp, hq, nativeCalls]

/-- C10 at the toy library: `connect` on a fresh handle against a bad server
fails with the bare message, although the native error text is not empty. -/
theorem lastError_empty_when_not_connected_witness :
    (run (connect toyPQ "host=db") SessionHandle.new ⟨false, true⟩).1
        = Except.error (Exc.ConnectionFailedException "Connection Error: ") ∧
      toyPQ.PQerrorMessage ⟨false, true⟩ (some 1) = "native error text" :=
  ⟨((lastError_empty_when_not_connected toyPQ SessionHandle.new ⟨false, true⟩).2.2.2
      "host=db" (by decide) (fun hok => by
        have hb := congrArg Except.toBool hok
        revert hb
        decide)).1, rfl⟩

/-! ## The six-argument connect -/

theorem string_append_eq (a b : String) : a.append b = a ++ b := rfl

theorem toDigitsCore_last (fuel n : Nat) (ds : List Char) :
    ∃ pre, Nat.toDigitsCore 10 (fuel + 1) n ds = pre ++ Nat.digitChar (n % 10) :: ds := by
  induction fuel generalizing n ds with
  | zero =>
    refine ⟨[], ?_⟩
    simp [Nat.toDigitsCore]
  | succ k ih =>
    unfold Nat.toDigitsCore
    by_cases h0 : n / 10 = 0
    · exact ⟨[], by simp [h0]⟩
    · obtain ⟨pre, hpre⟩ := ih (n / 10) (Nat.digitChar (n % 10) :: ds)
      exact ⟨pre ++ [Nat.digitChar (n / 10 % 10)], by simp [h0, hpre]⟩

/-- The decimal representation of a natural number ends in its last digit. -/
theorem toString_data_last (n : Nat) :
    ∃ pre, (toString n).data = pre ++ [Nat.digitChar (n % 10)] := by
  obtain ⟨pre, h⟩ := toDigitsCore_last n n []
  exact ⟨pre, by simpa [toString, Nat.repr, Nat.toDigits, List.asString] using h⟩

theorem digitChar_isDigit : ∀ m, m < 10 → (Nat.digitChar m).isDigit = true := by decide

/-- C9: for all host, user, password and database strings, every port and every
timeout (the ranges of `unsigned short` and `unsigned int` included), the
six-argument `connect` is `connect(s)` for
`s = "host=" ++ host ++ " user=" ++ user ++ " password=" ++ password ++
" dbname=" ++ database ++ " port=" ++ decimal(port) ++ " connect_timeout=" ++
decimal(timeout)`.  That string is the six `name=value` assignments host, user,
password, dbname, port, connect_timeout, in this order, joined by single
spaces, each name being one of the documented names and each value the
argument verbatim; it starts with `h` and ends with a decimal digit, so it has
no leading and no trailing space. -/
theorem connect_params_refines (L : LibPQ World) (aHost aUser aPassword aDatabase : String)
    (aPort aConnectionTimeout : Nat) :
    connect_params L aHost aUser aPassword aDatabase aPort aConnectionTimeout
        = connect L
          (connectionStringSpec aHost aUser aPassword aDatabase aPort aConnectionTimeout) ∧
      connectionStringSpec aHost aUser aPassword aDatabase aPort aConnectionTimeout
        = " ".intercalate
          ((connectionAssignments aHost aUser aPassword aDatabase aPort aConnectionTimeout).map
            (fun a => a.1 ++ "=" ++ a.2)) ∧
      (∀ a ∈ connectionAssignments aHost aUser aPassword aDatabase aPort aConnectionTimeout,
        a.1 ∈ documentedNames) ∧
      (connectionStringSpec aHost aUser aPassword aDatabase aPort
        aConnectionTimeout).data.head? = some 'h' ∧
      (∃ c, (connectionStringSpec aHost aUser aPassword aDatabase aPort
        aConnectionTimeout).data.getLast? = some c ∧ c.isDigit = true) := by
  refine ⟨?_, ?_, ?_, ?_, ?_⟩
  · have hs : ((((((((((((((((("".append "host=").append aHost).append " ").append
        "user=").append aUser).append " ").append "password=").append aPassword).append
        " ").append "dbname=").append aDatabase).append " ").append "port=") ++
        toString aPort).append " ").append "connect_timeout=") ++ toString aConnectionTimeout)
        = connectionStringSpec aHost aUser aPassword aDatabase aPort aConnectionTimeout := by
      apply String.ext
      simp [connectionStringSpec, String.data_append, string_append_eq]
    show connect L _ = connect L _
    exact congrArg (connect L) hs
  · apply String.ext
    simp [connectionStringSpec, connectionAssignments, String.intercalate,
      String.intercalate.go, String.data_append]
  · intro a ha
    simp only [connectionAssignments, List.mem_cons, List.mem_singleton, List.not_mem_nil,
      or_false] at ha
    rcases ha with e | e | e | e | e | e <;> subst e <;> simp [documentedNames]
  · simp [connectionStringSpec, String.data_append]
  · obtain ⟨pre, hpre⟩ := toString_data_last aConnectionTimeout
    refine ⟨Nat.digitChar (aConnectionTimeout % 10), ?_,
      digitChar_isDigit _ (Nat.mod_lt _ (by decide))⟩
    simp only [connectionStringSpec, String.data_append, hpre, ← List.append_assoc]
    exact List.getLast?_concat _

/-- C9 on one input: the string for host `db`, port 5432 and timeout 30. -/
theorem connect_params_refines_witness :
    connect_params toyPQ "db" "alice" "secret" "shop" 5432 30
      = connect toyPQ
        "host=db user=alice password=secret dbname=shop port=5432 connect_timeout=30" :=
  (connect_params_refines toyPQ "db" "alice" "secret" "shop" 5432 30).1.trans
    (congrArg (connect toyPQ) (by decide))

/-! ## The locking discipline -/

theorem mutexAfter_append (held : Bool) (xs ys : List Event) :
    mutexAfter held (xs ++ ys) = (mutexAfter held xs).bind (fun b => mutexAfter b ys) := by
  induction xs generalizing held with
  | nil => rfl
  | cons e rest ih =>
    cases e with
    | acquire => simpa [mutexAfter] using ih true
    | release => simpa [mutexAfter] using ih false
    | readConnection => cases held <;> simp [mutexAfter, ih]
    | writeConnection => cases held <;> simp [mutexAfter, ih]
    | call c => cases held <;> simp [mutexAfter, ih]

theorem guarded_pure {α : Type} (held : Bool) (a : α) : Guarded held (pure a : M World α) :=
  ⟨fun s => ⟨[], by simp [pure, ret], rfl⟩⟩

theorem guarded_raise {α : Type} (held : Bool) (e : Exc) :
    Guarded held (raise e : M World α) :=
  ⟨fun s => ⟨[], by simp [raise], rfl⟩⟩

theorem guarded_getHandle (held : Bool) : Guarded held (getHandle : M World SessionHandle) :=
  ⟨fun s => ⟨[], by simp [getHandle], rfl⟩⟩

theorem guarded_modifyHandle (held : Bool) (f : SessionHandle → SessionHandle) :
    Guarded held (modifyHandle f : M World Unit) :=
  ⟨fun s => ⟨[], by simp [modifyHandle], rfl⟩⟩

theorem guarded_nativeFree {α : Type} (held : Bool) (f : World → α × World) :
    Guarded held (nativeFree f) :=
  ⟨fun s => ⟨[], by simp [nativeFree], rfl⟩⟩

theorem guarded_readConnection : Guarded true (readConnection : M World (Option PGconn)) :=
  ⟨fun _ => ⟨[Event.readConnection], rfl, rfl⟩⟩

theorem guarded_writeConnection (p : Option PGconn) :
    Guarded true (writeConnection p : M World Unit) :=
  ⟨fun _ => ⟨[Event.writeConnection], rfl, rfl⟩⟩

theorem guarded_nativeRead {α : Type} (c : NativeCall) (f : World → α) :
    Guarded true (nativeRead c f) :=
  ⟨fun _ => ⟨[Event.call c], rfl, rfl⟩⟩

theorem guarded_nativeCall {α : Type} (c : NativeCall) (f : World → α × World) :
    Guarded true (nativeCall c f) :=
  ⟨fun _ => ⟨[Event.call c], rfl, rfl⟩⟩

theorem guarded_bind {α β : Type} (held : Bool) (x : M World α) (f : α → M World β)
    (hx : Guarded held x) (hf : ∀ a, Guarded held (f a)) : Guarded held (x >>= f) := by
  constructor
  intro s
  obtain ⟨e1, ht1, hm1⟩ := hx.events s
  show ∃ evs, (andThen x f s).2.trace = s.trace ++ evs ∧ mutexAfter held evs = some held
  unfold andThen
  cases hxs : x s with
  | mk r s1 =>
    rw [hxs] at ht1
    cases r with
    | error e => exact ⟨e1, ht1, hm1⟩
    | ok a =>
      obtain ⟨e2, ht2, hm2⟩ := (hf a).events s1
      refine ⟨e1 ++ e2, ?_, ?_⟩
      · show (f a s1).2.trace = _
        rw [ht2, ht1, List.append_assoc]
      · rw [mutexAfter_append, hm1]
        exact hm2

theorem guarded_ite {α : Type} (held : Bool) (c : Prop) [Decidable c] (x y : M World α)
    (hx : Guarded held x) (hy : Guarded held y) : Guarded held (if c then x else y) := by
  split
  · exact hx
  · exact hy

theorem guarded_scopedLock {α : Type} (body : M World α) (hb : Guarded true body) :
    Guarded false (scopedLock body) := by
  constructor
  intro s
  obtain ⟨evs, ht, hm⟩ := hb.events { s with trace := s.trace ++ [Event.acquire] }
  refine ⟨[Event.acquire] ++ evs ++ [Event.release], ?_, ?_⟩
  · show ((body { s with trace := s.trace ++ [Event.acquire] }).2.trace ++ [Event.release]) = _
    rw [ht]
    simp
  · rw [mutexAfter_append, mutexAfter_append]
    simp only [mutexAfter, Option.bind]
    rw [hm]

/-- The discipline of a whole call, from the function's being `Guarded`. -/
theorem lockedUse_of_guarded {α : Type} (m : M World α) (hm : Guarded false m)
    (h : SessionHandle) (w : World) : lockedUse false (run m h w).2.trace = true := by
  obtain ⟨evs, ht, he⟩ := hm.events { handle := h, world := w, trace := [] }
  simp only [run, lockedUse, ht, List.nil_append, he, Option.isSome]

theorem guarded_isConnected (L : LibPQ World) : Guarded false (isConnected L) := by
  unfold isConnected
  repeat' (first
    | exact guarded_readConnection | exact guarded_nativeRead _ _
    | exact guarded_pure _ _ | exact guarded_raise _ _
    | apply guarded_scopedLock | apply guarded_ite | apply guarded_bind | intro _)

theorem guarded_lastError (L : LibPQ World) : Guarded false (lastError L) := by
  unfold lastError
  repeat' (first
    | exact guarded_isConnected L | exact guarded_readConnection
    | exact guarded_nativeRead _ _ | exact guarded_pure _ _ | exact guarded_raise _ _
    | apply guarded_scopedLock | apply guarded_ite | apply guarded_bind | intro _)

theorem guarded_setConnectionInfoParameters (ptr : Option (List PQconninfoOption)) :
    Guarded false (setConnectionInfoParameters ptr : M World SessionParametersMap) := by
  cases ptr with
  | none => exact guarded_raise _ _
  | some options => exact guarded_pure _ _

theorem guarded_connect (L : LibPQ World) (aConnectionString : String) :
    Guarded false (connect L aConnectionString) := by
  unfold connect
  repeat' (first
    | exact guarded_isConnected L | exact guarded_lastError L | exact guarded_readConnection
    | exact guarded_writeConnection _ | exact guarded_getHandle _
    | exact guarded_nativeRead _ _ | exact guarded_nativeCall _ _ | exact guarded_nativeFree _ _
    | exact guarded_pure _ _ | exact guarded_raise _ _ | exact guarded_modifyHandle _ _
    | apply guarded_scopedLock | apply guarded_ite | apply guarded_bind | intro _)

theorem guarded_startTransaction (L : LibPQ World) :
    Guarded false (startTransaction L) := by
  unfold startTransaction
  repeat' (first
    | exact guarded_isConnected L | exact guarded_lastError L | exact guarded_readConnection
    | exact guarded_writeConnection _ | exact guarded_getHandle _
    | exact guarded_nativeRead _ _ | exact guarded_nativeCall _ _ | exact guarded_nativeFree _ _
    | exact guarded_pure _ _ | exact guarded_raise _ _ | exact guarded_modifyHandle _ _
    | apply guarded_scopedLock | apply guarded_ite | apply guarded_bind | intro _)

theorem guarded_commit (L : LibPQ World) :
    Guarded false (commit L) := by
  unfold commit
  repeat' (first
    | exact guarded_isConnected L | exact guarded_lastError L | exact guarded_readConnection
    | exact guarded_writeConnection _ | exact guarded_getHandle _
    | exact guarded_nativeRead _ _ | exact guarded_nativeCall _ _ | exact guarded_nativeFree _ _
    | exact guarded_pure _ _ | exact guarded_raise _ _ | exact guarded_modifyHandle _ _
    | apply guarded_scopedLock | apply guarded_ite | apply guarded_bind | intro _)

theorem guarded_rollback (L : LibPQ World) :
    Guarded false (rollback L) := by
  unfold rollback
  repeat' (first
    | exact guarded_isConnected L | exact guarded_lastError L | exact guarded_readConnection
    | exact guarded_writeConnection _ | exact guarded_getHandle _
    | exact guarded_nativeRead _ _ | exact guarded_nativeCall _ _ | exact guarded_nativeFree _ _
    | exact guarded_pure _ _ | exact guarded_raise _ _ | exact guarded_modifyHandle _ _
    | apply guarded_scopedLock | apply guarded_ite | apply guarded_bind | intro _)

theorem guarded_setAutoCommit (L : LibPQ World) (v : Bool) :
    Guarded false (setAutoCommit L v) := by
  unfold setAutoCommit
  repeat' (first
    | exact guarded_isConnected L | exact guarded_lastError L | exact guarded_readConnection
    | exact guarded_writeConnection _ | exact guarded_getHandle _
    | exact guarded_nativeRead _ _ | exact guarded_nativeCall _ _ | exact guarded_nativeFree _ _
    | exact guarded_pure _ _ | exact guarded_raise _ _ | exact guarded_modifyHandle _ _
    | exact guarded_commit L | exact guarded_startTransaction L
    | apply guarded_scopedLock | apply guarded_ite | apply guarded_bind | intro _)

theorem guarded_setAsynchronousCommit (L : LibPQ World) (v : Bool) :
    Guarded false (setAsynchronousCommit L v) := by
  unfold setAsynchronousCommit
  repeat' (first
    | exact guarded_isConnected L | exact guarded_lastError L | exact guarded_readConnection
    | exact guarded_writeConnection _ | exact guarded_getHandle _
    | exact guarded_nativeRead _ _ | exact guarded_nativeCall _ _ | exact guarded_nativeFree _ _
    | exact guarded_pure _ _ | exact guarded_raise _ _ | exact guarded_modifyHandle _ _
    | apply guarded_scopedLock | apply guarded_ite | apply guarded_bind | intro _)

theorem guarded_cancel (L : LibPQ World) :
    Guarded false (cancel L) := by
  unfold cancel
  repeat' (first
    | exact guarded_isConnected L | exact guarded_lastError L | exact guarded_readConnection
    | exact guarded_writeConnection _ | exact guarded_getHandle _
    | exact guarded_nativeRead _ _ | exact guarded_nativeCall _ _ | exact guarded_nativeFree _ _
    | exact guarded_pure _ _ | exact guarded_raise _ _ | exact guarded_modifyHandle _ _
    | apply guarded_scopedLock | apply guarded_ite | apply guarded_bind | intro _)

theorem guarded_setTransactionIsolation (L : LibPQ World) (aTI : Nat) :
    Guarded false (setTransactionIsolation L aTI) := by
  unfold setTransactionIsolation
  repeat' (first
    | exact guarded_isConnected L | exact guarded_lastError L | exact guarded_readConnection
    | exact guarded_writeConnection _ | exact guarded_getHandle _
    | exact guarded_nativeRead _ _ | exact guarded_nativeCall _ _ | exact guarded_nativeFree _ _
    | exact guarded_pure _ _ | exact guarded_raise _ _ | exact guarded_modifyHandle _ _
    | apply guarded_scopedLock | apply guarded_ite | apply guarded_bind | intro _)

theorem guarded_serverVersion (L : LibPQ World) :
    Guarded false (serverVersion L) := by
  unfold serverVersion
  repeat' (first
    | exact guarded_isConnected L | exact guarded_lastError L | exact guarded_readConnection
    | exact guarded_writeConnection _ | exact guarded_getHandle _
    | exact guarded_nativeRead _ _ | exact guarded_nativeCall _ _ | exact guarded_nativeFree _ _
    | exact guarded_pure _ _ | exact guarded_raise _ _ | exact guarded_modifyHandle _ _
    | apply guarded_scopedLock | apply guarded_ite | apply guarded_bind | intro _)

theorem guarded_serverProcessID (L : LibPQ World) :
    Guarded false (serverProcessID L) := by
  unfold serverProcessID
  repeat' (first
    | exact guarded_isConnected L | exact guarded_lastError L | exact guarded_readConnection
    | exact guarded_writeConnection _ | exact guarded_getHandle _
    | exact guarded_nativeRead _ _ | exact guarded_nativeCall _ _ | exact guarded_nativeFree _ _
    | exact guarded_pure _ _ | exact guarded_raise _ _ | exact guarded_modifyHandle _ _
    | apply guarded_scopedLock | apply guarded_ite | apply guarded_bind | intro _)

theorem guarded_protocoVersion (L : LibPQ World) :
    Guarded false (protocoVersion L) := by
  unfold protocoVersion
  repeat' (first
    | exact guarded_isConnected L | exact guarded_lastError L | exact guarded_readConnection
    | exact guarded_writeConnection _ | exact guarded_getHandle _
    | exact guarded_nativeRead _ _ | exact guarded_nativeCall _ _ | exact guarded_nativeFree _ _
    | exact guarded_pure _ _ | exact guarded_raise _ _ | exact guarded_modifyHandle _ _
    | apply guarded_scopedLock | apply guarded_ite | apply guarded_bind | intro _)

theorem guarded_clientEncoding (L : LibPQ World) :
    Guarded false (clientEncoding L) := by
  unfold clientEncoding
  repeat' (first
    | exact guarded_isConnected L | exact guarded_lastError L | exact guarded_readConnection
    | exact guarded_writeConnection _ | exact guarded_getHandle _
    | exact guarded_nativeRead _ _ | exact guarded_nativeCall _ _ | exact guarded_nativeFree _ _
    | exact guarded_pure _ _ | exact guarded_raise _ _ | exact guarded_modifyHandle _ _
    | apply guarded_scopedLock | apply guarded_ite | apply guarded_bind | intro _)

theorem guarded_connectionDefaultParameters (L : LibPQ World) :
    Guarded false (connectionDefaultParameters L) := by
  unfold connectionDefaultParameters
  repeat' (first
    | exact guarded_isConnected L | exact guarded_lastError L | exact guarded_readConnection
    | exact guarded_writeConnection _ | exact guarded_getHandle _
    | exact guarded_nativeRead _ _ | exact guarded_nativeCall _ _ | exact guarded_nativeFree _ _
    | exact guarded_pure _ _ | exact guarded_raise _ _ | exact guarded_modifyHandle _ _
    | exact guarded_setConnectionInfoParameters _
    | apply guarded_scopedLock | apply guarded_ite | apply guarded_bind | intro _)

theorem guarded_connectionParameters (L : LibPQ World) :
    Guarded false (connectionParameters L) := by
  unfold connectionParameters
  repeat' (first
    | exact guarded_isConnected L | exact guarded_lastError L | exact guarded_readConnection
    | exact guarded_writeConnection _ | exact guarded_getHandle _
    | exact guarded_nativeRead _ _ | exact guarded_nativeCall _ _ | exact guarded_nativeFree _ _
    | exact guarded_pure _ _ | exact guarded_raise _ _ | exact guarded_modifyHandle _ _
    | exact guarded_setConnectionInfoParameters _
    | apply guarded_scopedLock | apply guarded_ite | apply guarded_bind | intro _)

theorem guarded_transactionIsolation : Guarded false (transactionIsolation : M World Nat) := by
  unfold transactionIsolation
  exact guarded_bind _ _ _ (guarded_getHandle _) (fun _ => guarded_pure _ _)

/-- The events of `reset()`: they start with the read of `_pConnection` in the
condition `if ( _pConnection )`. -/
theorem reset_trace (L : LibPQ World) (h : SessionHandle) (w : World) :
    (run (reset L) h w).2.trace =
      if h._pConnection.isSome then
        [Event.readConnection, Event.acquire, Event.readConnection,
          Event.call NativeCall.PQreset, Event.release] ++ isConnectedEvents h
      else [Event.readConnection] := by
  cases hp : h._pConnection with
  | none => simp [run, reset, bind, andThen, pure, ret, readConnection, hp]
  | some c =>
    cases hc : connected L h (L.PQreset w (some c)) <;>
      simp [run, reset, bind, andThen, pure, ret, scopedLock, readConnection, nativeCall,
        isConnected_eq, hp, hc]

/-- C8: the locking discipline (no use of the connection handle while
`_sessionMutex` is not held) holds for the trace of every public member function
except `disconnect` and `reset`, and fails for these two from every state:
both evaluate `if ( _pConnection )` before they acquire the mutex, so the first
event of their trace is a read of the handle with the mutex not held. -/
theorem lock_discipline_fails_in_disconnect_and_reset (L : LibPQ World) (h : SessionHandle)
    (w : World) (op : Op) :
    (lockedUse false (op.run L h w).trace = true ↔ (op ≠ Op.disconnect ∧ op ≠ Op.reset)) ∧
      ((Op.disconnect).run L h w).trace.head? = some Event.readConnection ∧
      ((Op.reset).run L h w).trace.head? = some Event.readConnection := by
  refine ⟨?_, ?_, ?_⟩
  · cases op with
    | connect s => simpa using lockedUse_of_guarded _ (guarded_connect L s) h w
    | connect_cstr s => simpa using lockedUse_of_guarded _ (guarded_connect L s) h w
    | connect_params a b c d e f =>
      simpa using lockedUse_of_guarded _ (guarded_connect L _) h w
    | isConnected => simpa using lockedUse_of_guarded _ (guarded_isConnected L) h w
    | disconnect =>
      simp only [Op.run, disconnect_eq, ne_eq, not_true_eq_false, false_and, iff_false]
      cases h._pConnection <;> simp [lockedUse, mutexAfter]
    | reset =>
      simp only [Op.run, reset_trace, ne_eq, not_true_eq_false, and_false, iff_false]
      cases h._pConnection <;> simp [lockedUse, mutexAfter]
    | lastError => simpa using lockedUse_of_guarded _ (guarded_lastError L) h w
    | startTransaction => simpa using lockedUse_of_guarded _ (guarded_startTransaction L) h w
    | commit => simpa using lockedUse_of_guarded _ (guarded_commit L) h w
    | rollback => simpa using lockedUse_of_guarded _ (guarded_rollback L) h w
    | setAutoCommit v => simpa using lockedUse_of_guarded _ (guarded_setAutoCommit L v) h w
    | setAsynchronousCommit v =>
      simpa using lockedUse_of_guarded _ (guarded_setAsynchronousCommit L v) h w
    | cancel => simpa using lockedUse_of_guarded _ (guarded_cancel L) h w
    | setTransactionIsolation aTI =>
      simpa using lockedUse_of_guarded _ (guarded_setTransactionIsolation L aTI) h w
    | transactionIsolation =>
      simpa using lockedUse_of_guarded _ guarded_transactionIsolation h w
    | serverVersion => simpa using lockedUse_of_guarded _ (guarded_serverVersion L) h w
    | serverProcessID => simpa using lockedUse_of_guarded _ (guarded_serverProcessID L) h w
    | protocoVersion => simpa using lockedUse_of_guarded _ (guarded_protocoVersion L) h w
    | clientEncoding => simpa using lockedUse_of_guarded _ (guarded_clientEncoding L) h w
    | libpqVersion =>
      simpa using lockedUse_of_guarded _ (guarded_pure false L.PQlibVersion) h w
    | connectionDefaultParameters =>
      simpa using lockedUse_of_guarded _ (guarded_connectionDefaultParameters L) h w
    | connectionParameters =>
      simpa using lockedUse_of_guarded _ (guarded_connectionParameters L) h w
  · simp only [Op.run, disconnect_eq]
    cases h._pConnection <;> rfl
  · simp only [Op.run, reset_trace]
    cases h._pConnection <;> rfl

/-- C8 on one input: the trace of `disconnect()` on a connected handle; its
first event reads `_pConnection` before the mutex is acquired. -/
theorem disconnect_trace_sample :
    (run (disconnect toyPQ) SessionHandle.sample ⟨true, true⟩).2.trace
        = [Event.readConnection, Event.acquire, Event.readConnection,
            Event.call NativeCall.PQfinish, Event.writeConnection, Event.release] ∧
      lockedUse false (run (disconnect toyPQ) SessionHandle.sample ⟨true, true⟩).2.trace
        = false := by
  constructor <;> decide

/-! ## No self-deadlock -/

theorem lockAfter_append (held : Bool) (xs ys : List Event) :
    lockAfter held (xs ++ ys) = (lockAfter held xs).bind (fun b => lockAfter b ys) := by
  induction xs generalizing held with
  | nil => rfl
  | cons e rest ih =>
    cases e with
    | acquire => cases held <;> simp [lockAfter, ih]
    | release => cases held <;> simp [lockAfter, ih]
    | readConnection => simpa [lockAfter] using ih held
    | writeConnection => simpa [lockAfter] using ih held
    | call c => simpa [lockAfter] using ih held

/-- A trace that the mutex automaton accepts has an alternating lock/unlock
trace: from the free mutex directly, from the held mutex after the acquire
that went before. -/
theorem alternating_of_lockAfter (evs : List Event) :
    (lockAfter false evs = some false → alternating (lockEvents evs) = true) ∧
      (lockAfter true evs = some false →
        alternating (Event.acquire :: lockEvents evs) = true) := by
  induction evs with
  | nil => exact ⟨fun _ => rfl, fun h => by simp [lockAfter] at h⟩
  | cons e rest ih =>
    cases e with
    | acquire =>
      refine ⟨fun h => ?_, fun h => by simp [lockAfter] at h⟩
      exact ih.2 (by simpa [lockAfter] using h)
    | release =>
      refine ⟨fun h => by simp [lockAfter] at h, fun h => ?_⟩
      have h1 := ih.1 (by simpa [lockAfter] using h)
      simpa [lockEvents, alternating] using h1
    | readConnection =>
      exact ⟨fun h => ih.1 (by simpa [lockAfter] using h),
        fun h => ih.2 (by simpa [lockAfter] using h)⟩
    | writeConnection =>
      exact ⟨fun h => ih.1 (by simpa [lockAfter] using h),
        fun h => ih.2 (by simpa [lockAfter] using h)⟩
    | call c =>
      exact ⟨fun h => ih.1 (by simpa [lockAfter] using h),
        fun h => ih.2 (by simpa [lockAfter] using h)⟩

theorem locks_pure {α : Type} (held : Bool) (a : α) : Locks held (pure a : M World α) :=
  ⟨fun s => ⟨[], by simp [pure, ret], rfl⟩⟩

theorem locks_raise {α : Type} (held : Bool) (e : Exc) : Locks held (raise e : M World α) :=
  ⟨fun s => ⟨[], by simp [raise], rfl⟩⟩

theorem locks_getHandle (held : Bool) : Locks held (getHandle : M World SessionHandle) :=
  ⟨fun s => ⟨[], by simp [getHandle], rfl⟩⟩

theorem locks_modifyHandle (held : Bool) (f : SessionHandle → SessionHandle) :
    Locks held (modifyHandle f : M World Unit) :=
  ⟨fun s => ⟨[], by simp [modifyHandle], rfl⟩⟩

theorem locks_nativeFree {α : Type} (held : Bool) (f : World → α × World) :
    Locks held (nativeFree f) :=
  ⟨fun s => ⟨[], by simp [nativeFree], rfl⟩⟩

theorem locks_readConnection (held : Bool) :
    Locks held (readConnection : M World (Option PGconn)) :=
  ⟨fun _ => ⟨[Event.readConnection], rfl, rfl⟩⟩

theorem locks_writeConnection (held : Bool) (p : Option PGconn) :
    Locks held (writeConnection p : M World Unit) :=
  ⟨fun _ => ⟨[Event.writeConnection], rfl, rfl⟩⟩

theorem locks_nativeRead {α : Type} (held : Bool) (c : NativeCall) (f : World → α) :
    Locks held (nativeRead c f) :=
  ⟨fun _ => ⟨[Event.call c], rfl, rfl⟩⟩

theorem locks_nativeCall {α : Type} (held : Bool) (c : NativeCall) (f : World → α × World) :
    Locks held (nativeCall c f) :=
  ⟨fun _ => ⟨[Event.call c], rfl, rfl⟩⟩

theorem locks_bind {α β : Type} (held : Bool) (x : M World α) (f : α → M World β)
    (hx : Locks held x) (hf : ∀ a, Locks held (f a)) : Locks held (x >>= f) := by
  constructor
  intro s
  obtain ⟨e1, ht1, hm1⟩ := hx.events s
  show ∃ evs, (andThen x f s).2.trace = s.trace ++ evs ∧ lockAfter held evs = some held
  unfold andThen
  cases hxs : x s with
  | mk r s1 =>
    rw [hxs] at ht1
    cases r with
    | error e => exact ⟨e1, ht1, hm1⟩
    | ok a =>
      obtain ⟨e2, ht2, hm2⟩ := (hf a).events s1
      refine ⟨e1 ++ e2, ?_, ?_⟩
      · show (f a s1).2.trace = _
        rw [ht2, ht1, List.append_assoc]
      · rw [lockAfter_append, hm1]
        exact hm2

theorem locks_ite {α : Type} (held : Bool) (c : Prop) [Decidable c] (x y : M World α)
    (hx : Locks held x) (hy : Locks held y) : Locks held (if c then x else y) := by
  split
  · exact hx
  · exact hy

theorem locks_scopedLock {α : Type} (body : M World α) (hb : Locks true body) :
    Locks false (scopedLock body) := by
  constructor
  intro s
  obtain ⟨evs, ht, hm⟩ := hb.events { s with trace := s.trace ++ [Event.acquire] }
  refine ⟨[Event.acquire] ++ evs ++ [Event.release], ?_, ?_⟩
  · show ((body { s with trace := s.trace ++ [Event.acquire] }).2.trace ++ [Event.release]) = _
    rw [ht]
    simp
  · rw [lockAfter_append, lockAfter_append]
    simp [lockAfter, hm]

theorem locks_tryCatchAll (x : M World Unit) (hx : Locks false x) :
    Locks false (tryCatchAll x) :=
  ⟨fun s => hx.events s⟩

theorem locks_isConnected (L : LibPQ World) : Locks false (isConnected L) := by
  unfold isConnected
  repeat' (first
    | exact locks_readConnection _ | exact locks_nativeRead _ _ _
    | exact locks_pure _ _ | exact locks_raise _ _
    | apply locks_scopedLock | apply locks_ite | apply locks_bind | intro _)

theorem locks_lastError (L : LibPQ World) : Locks false (lastError L) := by
  unfold lastError
  repeat' (first
    | exact locks_isConnected L | exact locks_readConnection _
    | exact locks_nativeRead _ _ _ | exact locks_pure _ _ | exact locks_raise _ _
    | apply locks_scopedLock | apply locks_ite | apply locks_bind | intro _)

theorem locks_setConnectionInfoParameters (ptr : Option (List PQconninfoOption)) :
    Locks false (setConnectionInfoParameters ptr : M World SessionParametersMap) := by
  cases ptr with
  | none => exact locks_raise _ _
  | some options => exact locks_pure _ _

theorem locks_connect (L : LibPQ World) (aConnectionString : String) :
    Locks false (connect L aConnectionString) := by
  unfold connect
  repeat' (first
    | exact locks_isConnected L | exact locks_lastError L | exact locks_readConnection _
    | exact locks_writeConnection _ _ | exact locks_getHandle _
    | exact locks_nativeRead _ _ _ | exact locks_nativeCall _ _ _ | exact locks_nativeFree _ _
    | exact locks_pure _ _ | exact locks_raise _ _ | exact locks_modifyHandle _ _
    | apply locks_scopedLock | apply locks_ite | apply locks_bind | intro _)

theorem locks_disconnect (L : LibPQ World) :
    Locks false (disconnect L) := by
  unfold disconnect
  repeat' (first
    | exact locks_isConnected L | exact locks_lastError L | exact locks_readConnection _
    | exact locks_writeConnection _ _ | exact locks_getHandle _
    | exact locks_nativeRead _ _ _ | exact locks_nativeCall _ _ _ | exact locks_nativeFree _ _
    | exact locks_pure _ _ | exact locks_raise _ _ | exact locks_modifyHandle _ _
    | apply locks_scopedLock | apply locks_ite | apply locks_bind | intro _)

theorem locks_reset (L : LibPQ World) :
    Locks false (reset L) := by
  unfold reset
  repeat' (first
    | exact locks_isConnected L | exact locks_lastError L | exact locks_readConnection _
    | exact locks_writeConnection _ _ | exact locks_getHandle _
    | exact locks_nativeRead _ _ _ | exact locks_nativeCall _ _ _ | exact locks_nativeFree _ _
    | exact locks_pure _ _ | exact locks_raise _ _ | exact locks_modifyHandle _ _
    | apply locks_scopedLock | apply locks_ite | apply locks_bind | intro _)

theorem locks_startTransaction (L : LibPQ World) :
    Locks false (startTransaction L) := by
  unfold startTransaction
  repeat' (first
    | exact locks_isConnected L | exact locks_lastError L | exact locks_readConnection _
    | exact locks_writeConnection _ _ | exact locks_getHandle _
    | exact locks_nativeRead _ _ _ | exact locks_nativeCall _ _ _ | exact locks_nativeFree _ _
    | exact locks_pure _ _ | exact locks_raise _ _ | exact locks_modifyHandle _ _
    | apply locks_scopedLock | apply locks_ite | apply locks_bind | intro _)

theorem locks_commit (L : LibPQ World) :
    Locks false (commit L) := by
  unfold commit
  repeat' (first
    | exact locks_isConnected L | exact locks_lastError L | exact locks_readConnection _
    | exact locks_writeConnection _ _ | exact locks_getHandle _
    | exact locks_nativeRead _ _ _ | exact locks_nativeCall _ _ _ | exact locks_nativeFree _ _
    | exact locks_pure _ _ | exact locks_raise _ _ | exact locks_modifyHandle _ _
    | apply locks_scopedLock | apply locks_ite | apply locks_bind | intro _)

theorem locks_rollback (L : LibPQ World) :
    Locks false (rollback L) := by
  unfold rollback
  repeat' (first
    | exact locks_isConnected L | exact locks_lastError L | exact locks_readConnection _
    | exact locks_writeConnection _ _ | exact locks_getHandle _
    | exact locks_nativeRead _ _ _ | exact locks_nativeCall _ _ _ | exact locks_nativeFree _ _
    | exact locks_pure _ _ | exact locks_raise _ _ | exact locks_modifyHandle _ _
    | apply locks_scopedLock | apply locks_ite | apply locks_bind | intro _)

theorem locks_setAutoCommit (L : LibPQ World) (v : Bool) :
    Locks false (setAutoCommit L v) := by
  unfold setAutoCommit
  repeat' (first
    | exact locks_isConnected L | exact locks_lastError L | exact locks_readConnection _
    | exact locks_writeConnection _ _ | exact locks_getHandle _
    | exact locks_nativeRead _ _ _ | exact locks_nativeCall _ _ _ | exact locks_nativeFree _ _
    | exact locks_pure _ _ | exact locks_raise _ _ | exact locks_modifyHandle _ _
    | exact locks_commit L | exact locks_startTransaction L
    | apply locks_scopedLock | apply locks_ite | apply locks_bind | intro _)

theorem locks_setAsynchronousCommit (L : LibPQ World) (v : Bool) :
    Locks false (setAsynchronousCommit L v) := by
  unfold setAsynchronousCommit
  repeat' (first
    | exact locks_isConnected L | exact locks_lastError L | exact locks_readConnection _
    | exact locks_writeConnection _ _ | exact locks_getHandle _
    | exact locks_nativeRead _ _ _ | exact locks_nativeCall _ _ _ | exact locks_nativeFree _ _
    | exact locks_pure _ _ | exact locks_raise _ _ | exact locks_modifyHandle _ _
    | apply locks_scopedLock | apply locks_ite | apply locks_bind | intro _)

theorem locks_cancel (L : LibPQ World) :
    Locks false (cancel L) := by
  unfold cancel
  repeat' (first
    | exact locks_isConnected L | exact locks_lastError L | exact locks_readConnection _
    | exact locks_writeConnection _ _ | exact locks_getHandle _
    | exact locks_nativeRead _ _ _ | exact locks_nativeCall _ _ _ | exact locks_nativeFree _ _
    | exact locks_pure _ _ | exact locks_raise _ _ | exact locks_modifyHandle _ _
    | apply locks_scopedLock | apply locks_ite | apply locks_bind | intro _)

theorem locks_setTransactionIsolation (L : LibPQ World) (aTI : Nat) :
    Locks false (setTransactionIsolation L aTI) := by
  unfold setTransactionIsolation
  repeat' (first
    | exact locks_isConnected L | exact locks_lastError L | exact locks_readConnection _
    | exact locks_writeConnection _ _ | exact locks_getHandle _
    | exact locks_nativeRead _ _ _ | exact locks_nativeCall _ _ _ | exact locks_nativeFree _ _
    | exact locks_pure _ _ | exact locks_raise _ _ | exact locks_modifyHandle _ _
    | apply locks_scopedLock | apply locks_ite | apply locks_bind | intro _)

theorem locks_serverVersion (L : LibPQ World) :
    Locks false (serverVersion L) := by
  unfold serverVersion
  repeat' (first
    | exact locks_isConnected L | exact locks_lastError L | exact locks_readConnection _
    | exact locks_writeConnection _ _ | exact locks_getHandle _
    | exact locks_nativeRead _ _ _ | exact locks_nativeCall _ _ _ | exact locks_nativeFree _ _
    | exact locks_pure _ _ | exact locks_raise _ _ | exact locks_modifyHandle _ _
    | apply locks_scopedLock | apply locks_ite | apply locks_bind | intro _)

theorem locks_serverProcessID (L : LibPQ World) :
    Locks false (serverProcessID L) := by
  unfold serverProcessID
  repeat' (first
    | exact locks_isConnected L | exact locks_lastError L | exact locks_readConnection _
    | exact locks_writeConnection _ _ | exact locks_getHandle _
    | exact locks_nativeRead _ _ _ | exact locks_nativeCall _ _ _ | exact locks_nativeFree _ _
    | exact locks_pure _ _ | exact locks_raise _ _ | exact locks_modifyHandle _ _
    | apply locks_scopedLock | apply locks_ite | apply locks_bind | intro _)

theorem locks_protocoVersion (L : LibPQ World) :
    Locks false (protocoVersion L) := by
  unfold protocoVersion
  repeat' (first
    | exact locks_isConnected L | exact locks_lastError L | exact locks_readConnection _
    | exact locks_writeConnection _ _ | exact locks_getHandle _
    | exact locks_nativeRead _ _ _ | exact locks_nativeCall _ _ _ | exact locks_nativeFree _ _
    | exact locks_pure _ _ | exact locks_raise _ _ | exact locks_modifyHandle _ _
    | apply locks_scopedLock | apply locks_ite | apply locks_bind | intro _)

theorem locks_clientEncoding (L : LibPQ World) :
    Locks false (clientEncoding L) := by
  unfold clientEncoding
  repeat' (first
    | exact locks_isConnected L | exact locks_lastError L | exact locks_readConnection _
    | exact locks_writeConnection _ _ | exact locks_getHandle _
    | exact locks_nativeRead _ _ _ | exact locks_nativeCall _ _ _ | exact locks_nativeFree _ _
    | exact locks_pure _ _ | exact locks_raise _ _ | exact locks_modifyHandle _ _
    | apply locks_scopedLock | apply locks_ite | apply locks_bind | intro _)

theorem locks_connectionDefaultParameters (L : LibPQ World) :
    Locks false (connectionDefaultParameters L) := by
  unfold connectionDefaultParameters
  repeat' (first
    | exact locks_isConnected L | exact locks_lastError L | exact locks_readConnection _
    | exact locks_writeConnection _ _ | exact locks_getHandle _
    | exact locks_nativeRead _ _ _ | exact locks_nativeCall _ _ _ | exact locks_nativeFree _ _
    | exact locks_pure _ _ | exact locks_raise _ _ | exact locks_modifyHandle _ _
    | exact locks_setConnectionInfoParameters _
    | apply locks_scopedLock | apply locks_ite | apply locks_bind | intro _)

theorem locks_connectionParameters (L : LibPQ World) :
    Locks false (connectionParameters L) := by
  unfold connectionParameters
  repeat' (first
    | exact locks_isConnected L | exact locks_lastError L | exact locks_readConnection _
    | exact locks_writeConnection _ _ | exact locks_getHandle _
    | exact locks_nativeRead _ _ _ | exact locks_nativeCall _ _ _ | exact locks_nativeFree _ _
    | exact locks_pure _ _ | exact locks_raise _ _ | exact locks_modifyHandle _ _
    | exact locks_setConnectionInfoParameters _
    | apply locks_scopedLock | apply locks_ite | apply locks_bind | intro _)

theorem locks_transactionIsolation : Locks false (transactionIsolation : M World Nat) := by
  unfold transactionIsolation
  exact locks_bind _ _ _ (locks_getHandle _) (fun _ => locks_pure _ _)

theorem locks_destroy (L : LibPQ World) : Locks false (SessionHandle.destroy L) :=
  locks_tryCatchAll _ (locks_disconnect L)

/-- The mutex automaton over a whole call, from the function's being `Locks`. -/
theorem lockAfter_of_locks {α : Type} (m : M World α) (hm : Locks false m)
    (h : SessionHandle) (w : World) : lockAfter false (run m h w).2.trace = some false := by
  obtain ⟨evs, ht, he⟩ := hm.events { handle := h, world := w, trace := [] }
  simp only [run, ht, List.nil_append, he]

/-- An alternating sequence is empty, or starts with an acquire and ends with a
release. -/
theorem alternating_ends : ∀ (l : List Event), alternating l = true →
    l = [] ∨ (l.head? = some Event.acquire ∧ l.getLast? = some Event.release)
  | [], _ => Or.inl rfl
  | [e], h => by cases e <;> simp [alternating] at h
  | a :: b :: rest, h => by
    cases a <;> cases b <;> simp [alternating] at h
    rcases alternating_ends rest h with e | ⟨_, e⟩
    · subst e
      exact Or.inr ⟨rfl, rfl⟩
    · refine Or.inr ⟨rfl, ?_⟩
      cases rest with
      | nil => simp at e
      | cons c tail => simpa [List.getLast?_cons_cons] using e

/-- The mutex automaton of every public member function, one by one. -/
theorem locks_op (L : LibPQ World) (h : SessionHandle) (w : World) (op : Op) :
    lockAfter false (op.run L h w).trace = some false := by
  cases op with
  | connect s => exact lockAfter_of_locks _ (locks_connect L s) h w
  | connect_cstr s => exact lockAfter_of_locks _ (locks_connect L s) h w
  | connect_params a b c d e f => exact lockAfter_of_locks _ (locks_connect L _) h w
  | isConnected => exact lockAfter_of_locks _ (locks_isConnected L) h w
  | disconnect => exact lockAfter_of_locks _ (locks_disconnect L) h w
  | reset => exact lockAfter_of_locks _ (locks_reset L) h w
  | lastError => exact lockAfter_of_locks _ (locks_lastError L) h w
  | startTransaction => exact lockAfter_of_locks _ (locks_startTransaction L) h w
  | commit => exact lockAfter_of_locks _ (locks_commit L) h w
  | rollback => exact lockAfter_of_locks _ (locks_rollback L) h w
  | setAutoCommit v => exact lockAfter_of_locks _ (locks_setAutoCommit L v) h w
  | setAsynchronousCommit v =>
    exact lockAfter_of_locks _ (locks_setAsynchronousCommit L v) h w
  | cancel => exact lockAfter_of_locks _ (locks_cancel L) h w
  | setTransactionIsolation aTI =>
    exact lockAfter_of_locks _ (locks_setTransactionIsolation L aTI) h w
  | transactionIsolation => exact lockAfter_of_locks _ locks_transactionIsolation h w
  | serverVersion => exact lockAfter_of_locks _ (locks_serverVersion L) h w
  | serverProcessID => exact lockAfter_of_locks _ (locks_serverProcessID L) h w
  | protocoVersion => exact lockAfter_of_locks _ (locks_protocoVersion L) h w
  | clientEncoding => exact lockAfter_of_locks _ (locks_clientEncoding L) h w
  | libpqVersion => exact lockAfter_of_locks _ (locks_pure false L.PQlibVersion) h w
  | connectionDefaultParameters =>
    exact lockAfter_of_locks _ (locks_connectionDefaultParameters L) h w
  | connectionParameters => exact lockAfter_of_locks _ (locks_connectionParameters L) h w

/-- C11: no self-deadlock on the non-recursive `_sessionMutex`.  For every
public member function of `SessionHandle` and the destructor, from every state
and for every behaviour of the native library, with all nested calls
(`isConnected`, `lastError`, `startTransaction`, `commit`, `connect`,
`disconnect`) followed: the mutex is never acquired at a point where it is held
already, never released while it is not held, and is not held when the function
returns or throws (`lockAfter` ends in `some false`); the lock/unlock event
trace is a sequence of strictly alternating acquire and release events, which
is empty or starts with an acquire and ends with a release. -/
theorem no_self_deadlock (L : LibPQ World) (h : SessionHandle) (w : World) (op : Op) :
    lockAfter false (op.run L h w).trace = some false ∧
      alternating (lockEvents (op.run L h w).trace) = true ∧
      (lockEvents (op.run L h w).trace = [] ∨
        ((lockEvents (op.run L h w).trace).head? = some Event.acquire ∧
          (lockEvents (op.run L h w).trace).getLast? = some Event.release)) ∧
      lockAfter false (run (SessionHandle.destroy L) h w).2.trace = some false ∧
      alternating (lockEvents (run (SessionHandle.destroy L) h w).2.trace) = true := by
  have h1 := locks_op L h w op
  have h2 := (alternating_of_lockAfter (op.run L h w).trace).1 h1
  have h3 := lockAfter_of_locks _ (locks_destroy L) h w
  exact ⟨h1, h2, alternating_ends _ h2, h3,
    (alternating_of_lockAfter (run (SessionHandle.destroy L) h w).2.trace).1 h3⟩

/-- C11 on concrete inputs of the toy library: the lock/unlock trace of a
`commit()` whose statement fails is four acquire/release pairs (`isConnected`,
the `PQexec` block, and the `isConnected` and the locked block of
`lastError`), and the automaton does reject a nested acquire: a block that
called `isConnected()` while it holds the mutex would block on itself. -/
theorem no_self_deadlock_witness :
    lockEvents ((Op.commit).run toyPQ SessionHandle.sample ⟨true, false⟩).trace
        = [Event.acquire, Event.release, Event.acquire, Event.release,
            Event.acquire, Event.release, Event.acquire, Event.release] ∧
      alternating (lockEvents ((Op.commit).run toyPQ SessionHandle.sample ⟨true, false⟩).trace)
        = true ∧
      lockAfter false
        (run (scopedLock (isConnected toyPQ)) SessionHandle.sample ⟨true, true⟩).2.trace
        = none :=
  ⟨by decide, (no_self_deadlock toyPQ SessionHandle.sample ⟨true, false⟩ Op.commit).2.1,
    by decide⟩

end Poco.Data.PostgreSQL
